import Mathlib

/-!
# gnome-session-sysvinit: leader / monitor shutdown coordination

A shallow embedding of `src/gnome-session/leader-sysvinit.c` (the session
leader) and `src/tools/gnome-session-ctl.c` (the session monitor).

Both programs are single-threaded GLib main-loop programs.  Every callback
becomes a function on an explicit process state; `g_main_loop_run` becomes a
function that dispatches a finite list of events, one ready source per loop
iteration, for as long as the loop's `is_running` flag is set.  What a process
does to the outside world is recorded, in order, in a list of `Action`s.
Results of system and library calls (open, fstat, write, bus queries) are
inputs of the model.
-/

namespace GnomeSession

/-! ## Constants of the C library and of GLib -/

/-- File-type bit of a named pipe in `st_mode` (`<sys/stat.h>`). -/
def S_IFIFO : Nat := 0o010000
/-- File-type bits of a character device. -/
def S_IFCHR : Nat := 0o020000
/-- File-type bits of a directory. -/
def S_IFDIR : Nat := 0o040000
/-- File-type bits of a block device. -/
def S_IFBLK : Nat := 0o060000
/-- File-type bits of a regular file. -/
def S_IFREG : Nat := 0o100000
/-- File-type bits of a symbolic link. -/
def S_IFLNK : Nat := 0o120000
/-- File-type bits of a socket. -/
def S_IFSOCK : Nat := 0o140000
/-- Mask of the file-type field of `st_mode`. -/
def S_IFMT : Nat := 0o170000

/-- The seven standard file types. -/
def standardFileTypes : List Nat :=
  [S_IFIFO, S_IFCHR, S_IFDIR, S_IFBLK, S_IFREG, S_IFLNK, S_IFSOCK]

/-- The test both programs apply after `fstat`: `statbuf.st_mode & S_IFIFO`
is non-zero (leader-sysvinit.c line 285, gnome-session-ctl.c line 149). -/
def mode_has_fifo_bit (st_mode : Nat) : Bool :=
  st_mode &&& S_IFIFO != 0

/-- The exact named-pipe test `(st_mode & S_IFMT) == S_IFIFO`, as the claim
words it; the programs do not use it. -/
def mode_is_fifo_exact (st_mode : Nat) : Bool :=
  st_mode &&& S_IFMT == S_IFIFO

/-- `GIOCondition` bit: data to read. -/
def G_IO_IN : Nat := 1
/-- `GIOCondition` bit: urgent data to read. -/
def G_IO_PRI : Nat := 2
/-- `GIOCondition` bit: writing will not block. -/
def G_IO_OUT : Nat := 4
/-- `GIOCondition` bit: error condition. -/
def G_IO_ERR : Nat := 8
/-- `GIOCondition` bit: hung up. -/
def G_IO_HUP : Nat := 16
/-- `GIOCondition` bit: invalid request. -/
def G_IO_NVAL : Nat := 32

/-- `EEXIST` of `<errno.h>`. -/
def EEXIST : Nat := 17

/-! ## The outside world -/

/-- One step a process takes that the outside world can see, in the order the
source performs them.  Log calls carry their format string. -/
inductive Action where
  | sd_notify (state : String)
  | g_debug (msg : String)
  | g_info (msg : String)
  | g_warning (msg : String)
  | g_error (msg : String)
  | g_printerr (msg : String)
  | g_setenv (name value : String)
  | mkfifo (path : String) (mode : Nat)
  | g_open (path : String) (flags : String)
  | fstat (fd : Int)
  | close (fd : Int)
  | read (fd : Int) (count : Nat)
  | write (fd : Int) (data : String) (ret : Int)
  | g_spawn_async (argv : List String)
  | dbus_call (method : String) (arg : String)
  | g_dbus_proxy_new_sync (object_path : String)
  | g_signal_connect (detailed_signal : String)
  | g_main_loop_run
  | g_main_loop_run_returned
  deriving DecidableEq, Repr

/-- Where a process stands.  `running`: executing its code.  `blocked`: inside
`g_main_loop_run`, waiting for an event that the finite event list no longer
supplies.  `exited c`: returned from `main` or called `exit (c)`.  `aborted`:
stopped by `g_error`.  `killed`: ended by the default action of a signal no
source watches any more.  `undefined`: read a string out of a `GVariant` that
holds no string. -/
inductive Status where
  | running
  | blocked
  | exited (code : Nat)
  | aborted
  | killed
  | undefined
  deriving DecidableEq, Repr

/-- Number of processes spawned in a trace. -/
def spawn_count (t : List Action) : Nat :=
  t.countP fun a => match a with
    | .g_spawn_async _ => true
    | _ => false

/-- Number of `read` and `write` calls in a trace. -/
def io_count (t : List Action) : Nat :=
  t.countP fun a => match a with
    | .read _ _ => true
    | .write _ _ _ => true
    | _ => false

/-- Number of bytes written in a trace: the positive results of `write`. -/
def bytes_written : List Action → Nat
  | [] => 0
  | .write _ _ ret :: t => ret.toNat + bytes_written t
  | _ :: t => bytes_written t

/-- Number of handlers connected to a signal in a trace. -/
def subscription_count (t : List Action) : Nat :=
  t.countP fun a => match a with
    | .g_signal_connect _ => true
    | _ => false

/-! ## The session monitor: `src/tools/gnome-session-ctl.c` -/

namespace Ctl

/-- The struct `MonitorLeader`; `loop_running` is the `is_running` flag of the
`GMainLoop` that `loop` points to. -/
structure MonitorLeader where
  loop_running : Bool
  fifo_fd : Int
  deriving DecidableEq, Repr

/-- State of the monitor process: the `MonitorLeader` on the stack of
`do_monitor_leader`, which event sources are attached to the main context, the
actions performed so far, and where the process stands. -/
structure Proc where
  data : MonitorLeader
  fifo_watch : Bool
  sigterm_watch : Bool
  sigint_watch : Bool
  trace : List Action
  status : Status
  deriving DecidableEq, Repr

/-- Append one action to the trace. -/
def Proc.emit (p : Proc) (a : Action) : Proc :=
  { p with trace := p.trace ++ [a] }

/-- Continue with `f` only while the process is still executing. -/
def Proc.andThen (p : Proc) (f : Proc → Proc) : Proc :=
  if p.status = Status.running then f p else p

/-- GLib `g_main_loop_quit`: clears the loop's `is_running` flag. -/
def g_main_loop_quit (p : Proc) : Proc :=
  { p with data := { p.data with loop_running := false } }

/-- Build-time configuration: whether `USE_OPENRC` is defined. -/
structure Config where
  use_openrc : Bool
  deriving DecidableEq, Repr

/-- Source `do_start_unit` (lines 47-61).  `spawn_ok` is the result of the
spawn call.  The `unit` argument is not used by the source either. -/
def do_start_unit (cfg : Config) (spawn_ok : Bool) (_unit : String) (p : Proc) : Proc :=
  if cfg.use_openrc then
    let p := p.emit (.g_spawn_async ["/usr/bin/openrc", "-U", "default"])
    if !spawn_ok then p.emit (.g_warning "Failed to start OpenRC unit: %s") else p
  else
    let p := p.emit (.g_spawn_async ["/etc/init.d/gnome-session-shutdown", "start"])
    if !spawn_ok then p.emit (.g_warning "Failed to start SysVinit unit: %s") else p

/-- Source `do_signal_init` (lines 78-97), with `get_session_bus` (lines
65-76) inlined: `bus_ok` is whether the session bus was reached, `call_ok`
whether the `Initialized` call succeeded. -/
def do_signal_init (bus_ok call_ok : Bool) (p : Proc) : Proc :=
  if !bus_ok then p.emit (.g_warning "Couldn\x27t connect to session bus: %s")
  else
    let p := p.emit (.dbus_call "org.gnome.SessionManager.Initialized" "")
    if !call_ok then p.emit (.g_warning "Failed to call signal initialization: %s") else p

/-- Source `leader_term_or_int_signal_cb` of the monitor (lines 101-107).
The returned flag is `G_SOURCE_REMOVE` (false). -/
def leader_term_or_int_signal_cb (p : Proc) : Proc × Bool :=
  (g_main_loop_quit p, false)

/-- Source `leader_fifo_io_cb` (lines 109-128).  The returned flag is
`G_SOURCE_CONTINUE` (true).  The result of `read` is ignored by the source. -/
def leader_fifo_io_cb (condition : Nat) (p : Proc) : Proc × Bool :=
  let p := p.emit (.sd_notify "STOPPING=1")
  let p := if condition &&& G_IO_IN != 0 then
      g_main_loop_quit (p.emit (.read p.data.fifo_fd 1))
    else p
  let p := if condition &&& G_IO_HUP != 0 then g_main_loop_quit p else p
  (p, true)

/-- An event the main loop of the monitor can be woken by. -/
inductive Event where
  | fifo_ready (condition : Nat)
  | sigterm
  | sigint
  deriving DecidableEq, Repr

/-- Dispatch of one event by the main context: the callback of the source
watching it runs and the source stays attached iff the callback says so.  A
FIFO condition nobody watches wakes nothing; a signal nobody watches takes its
default action, which for SIGTERM and SIGINT ends the process. -/
def dispatch (p : Proc) : Event → Proc
  | .fifo_ready condition =>
    if p.fifo_watch then
      let r := leader_fifo_io_cb condition p
      { r.1 with fifo_watch := r.2 }
    else p
  | .sigterm =>
    if p.sigterm_watch then
      let r := leader_term_or_int_signal_cb p
      { r.1 with sigterm_watch := r.2 }
    else { p with status := Status.killed }
  | .sigint =>
    if p.sigint_watch then
      let r := leader_term_or_int_signal_cb p
      { r.1 with sigint_watch := r.2 }
    else { p with status := Status.killed }

/-- The iterations of `g_main_loop_run`: while `is_running` is set, wait for
the next event and dispatch it.  When the events run out with the flag still
set, the process stays blocked in the loop. -/
def iterate : Proc → List Event → Proc
  | p, [] =>
    if p.status = Status.running && p.data.loop_running then
      { p with status := Status.blocked }
    else p
  | p, e :: es =>
    if p.status = Status.running && p.data.loop_running then
      iterate (dispatch p e) es
    else p

/-- GLib `g_main_loop_run`: sets `is_running`, iterates, and returns once the
flag is cleared. -/
def g_main_loop_run (events : List Event) (p : Proc) : Proc :=
  let p := p.emit .g_main_loop_run
  let p := { p with data := { p.data with loop_running := true } }
  (iterate p events).andThen fun p => p.emit .g_main_loop_run_returned

/-- Results of the system calls `do_monitor_leader` makes. -/
structure Sys where
  runtime_dir : String
  mkfifo_ret : Int
  mkfifo_errno : Nat
  open_ret : Int
  fstat_ret : Int
  st_mode : Nat
  deriving DecidableEq, Repr

/-- Whether the FIFO was opened and found to be a named pipe: the conditions
of lines 146 and 149 that lead to `g_unix_fd_add`. -/
def Sys.fifo_ok (sys : Sys) : Bool :=
  decide (sys.open_ret ≥ 0) && !(decide (sys.fstat_ret < 0) || !(mode_has_fifo_bit sys.st_mode))

/-- Source `do_monitor_leader`, lines 137-162: everything before the loop is
run. -/
def do_monitor_leader_setup (sys : Sys) (p : Proc) : Proc :=
  let p := { p with data := { p.data with loop_running := true } }
  let fifo_name := sys.runtime_dir ++ "/gnome-session-leader-fifo"
  let p := p.emit (.mkfifo fifo_name 0o666)
  let p := if sys.mkfifo_ret < 0 && sys.mkfifo_errno != EEXIST then
      p.emit (.g_warning "Error creating FIFO: %m")
    else p
  let p := p.emit (.g_open fifo_name "O_RDONLY | O_CLOEXEC")
  let p := { p with data := { p.data with fifo_fd := sys.open_ret } }
  let p := if p.data.fifo_fd ≥ 0 then
      let p := p.emit (.fstat p.data.fifo_fd)
      if sys.fstat_ret < 0 || !(mode_has_fifo_bit sys.st_mode) then
        let p := p.emit (.g_warning "FD is not a FIFO, cannot monitor leader")
        let p := p.emit (.close p.data.fifo_fd)
        { p with data := { p.data with fifo_fd := -1 } }
      else
        let p := p.emit (.sd_notify "STATUS=Watching session leader")
        { p with fifo_watch := true }
    else p.emit (.g_warning "Failed to open FIFO: %m")
  let p := { p with sigterm_watch := true }
  { p with sigint_watch := true }

/-- Source `do_monitor_leader` (lines 130-166). -/
def do_monitor_leader (sys : Sys) (events : List Event) (p : Proc) : Proc :=
  g_main_loop_run events (do_monitor_leader_setup sys p)

/-- The three command-line switches after option parsing. -/
structure Options where
  opt_shutdown : Bool
  opt_monitor : Bool
  opt_signal_init : Bool
  deriving DecidableEq, Repr

/-- Everything `main` of the monitor takes from outside. -/
structure Input where
  cfg : Config
  parse_ok : Bool
  opts : Options
  sys : Sys
  bus_ok : Bool
  call_ok : Bool
  spawn_ok : Bool
  deriving DecidableEq, Repr

/-- The monitor process at the start of `main`. -/
def start : Proc :=
  { data := { loop_running := false, fifo_fd := -1 }
    fifo_watch := false
    sigterm_watch := false
    sigint_watch := false
    trace := []
    status := Status.running }

/-- Source `main` (lines 170-221), from option parsing on. -/
def main (i : Input) (events : List Event) : Proc :=
  let p := start
  if !i.parse_ok then
    { p.emit (.g_warning "Unable to start: %s") with status := Status.exited 1 }
  else
    let opt_count := (if i.opts.opt_shutdown then 1 else 0)
      + (if i.opts.opt_monitor then 1 else 0)
      + (if i.opts.opt_signal_init then 1 else 0)
    if opt_count != 1 then
      { p.emit (.g_printerr "Program needs exactly one parameter\n") with
        status := Status.exited 1 }
    else
      let p := p.emit (.sd_notify "READY=1")
      let p := if i.opts.opt_signal_init then
          do_signal_init i.bus_ok i.call_ok p
        else if i.opts.opt_shutdown then
          do_start_unit i.cfg i.spawn_ok "gnome-session-shutdown.target" p
        else if i.opts.opt_monitor then
          (do_monitor_leader i.sys events p).andThen
            (do_start_unit i.cfg i.spawn_ok "gnome-session-shutdown.target")
        else { p with status := Status.aborted }
      p.andThen fun p => { p with status := Status.exited 0 }

/-! ### Notions used to state the properties of the monitor -/

/-- Whether an event ends the run of the monitor: either signal, or a FIFO
condition with `G_IO_IN` or `G_IO_HUP` when the FIFO is watched. -/
def ends_run (fifo_ok : Bool) : Event → Bool
  | .fifo_ready condition =>
    fifo_ok && (condition &&& G_IO_IN != 0 || condition &&& G_IO_HUP != 0)
  | .sigterm => true
  | .sigint => true

/-- The actions of one call of `do_start_unit`. -/
def trigger_actions (cfg : Config) (spawn_ok : Bool) : List Action :=
  (do_start_unit cfg spawn_ok "gnome-session-shutdown.target" start).trace

/-- The monitor as `do_monitor_leader` hands it to `g_main_loop_run`. -/
def entry (sys : Sys) : Proc :=
  do_monitor_leader_setup sys (start.emit (.sd_notify "READY=1"))

/-- Input of a monitor started with `--monitor` alone, in the SysVinit build,
whose spawn succeeds. -/
def monitor_input (sys : Sys) : Input :=
  { cfg := { use_openrc := false }
    parse_ok := true
    opts := { opt_shutdown := false, opt_monitor := true, opt_signal_init := false }
    sys := sys
    bus_ok := true
    call_ok := true
    spawn_ok := true }

/-- System-call results when the FIFO exists and is a named pipe, opened as
descriptor 5. -/
def sys_fifo : Sys :=
  { runtime_dir := "/run/user/1000", mkfifo_ret := -1, mkfifo_errno := EEXIST,
    open_ret := 5, fstat_ret := 0, st_mode := S_IFIFO ||| 0o644 }

/-- The first two steps of `g_main_loop_run`. -/
def armed (p : Proc) : Proc :=
  { p.emit Action.g_main_loop_run with
    data := { (p.emit Action.g_main_loop_run).data with loop_running := true } }

end Ctl

/-! ## C strings -/

/-- The NUL character that ends a C string. -/
def NUL : Char := Char.ofNat 0

/-- A string is a C string when it holds no NUL: environment values and
string literals are. -/
def IsCString (s : String) : Prop := NUL ∉ s.toList

instance (s : String) : Decidable (IsCString s) := by
  unfold IsCString; infer_instance

/-- The loop of libc `strncmp` on the characters of two C strings, each
followed by its terminating NUL: compare at most `n` characters, stop at the
first difference or at a NUL. -/
def strncmp_chars : List Char → List Char → Nat → Int
  | _, _, 0 => 0
  | s1, s2, n + 1 =>
    let c1 := s1.headD NUL
    let c2 := s2.headD NUL
    if c1 ≠ c2 then (c1.toNat : Int) - (c2.toNat : Int)
    else if c1 = NUL then 0
    else strncmp_chars s1.tail s2.tail n

/-- libc `strncmp`.  A character of the string stands for a byte; the strings
the programs compare against are ASCII literals. -/
def strncmp (s1 s2 : String) (n : Nat) : Int :=
  strncmp_chars s1.toList s2.toList n

/-- libc `strcmp`: `strncmp` with a bound past both terminators. -/
def strcmp (s1 s2 : String) : Int :=
  strncmp s1 s2 (max s1.length s2.length + 1)

/-- GLib `g_strcmp0` on two strings that are not NULL. -/
def g_strcmp0 (str1 str2 : String) : Int := strcmp str1 str2

/-- C `sizeof` of a string literal: its characters and the terminating NUL. -/
def sizeof_literal (s : String) : Nat := s.length + 1

/-! ## The session leader: `src/gnome-session/leader-sysvinit.c` -/

namespace Leader

/-- The process environment: the value of each variable, if set. -/
abbrev Env := String → Option String

/-- GLib `g_getenv`. -/
def g_getenv (env : Env) (name : String) : Option String := env name

/-- GLib `g_setenv` with `overwrite` TRUE. -/
def env_set (env : Env) (name value : String) : Env :=
  fun v => if v = name then some value else env v

/-- A `GVariant` value as far as the leader looks at it: a string, or a value
of some other type. -/
inductive GVariant where
  | string (s : String)
  | non_string
  deriving DecidableEq, Repr

/-- The dictionary of changed properties of a `g-properties-changed` signal:
property names with their values. -/
abbrev Dict := List (String × GVariant)

/-- GLib `g_variant_lookup_value` on a dictionary. -/
def g_variant_lookup_value (dictionary : Dict) (key : String) : Option GVariant :=
  dictionary.lookup key

/-- The struct `Leader`; `loop_running` is the `is_running` flag of `loop`,
`session_bus` says whether the connection is non-NULL, `awaiting_shutdown` is
the proxy (named by its object path) or NULL. -/
structure Ctx where
  session_bus : Bool
  loop_running : Bool
  fifo_fd : Int
  awaiting_shutdown : Option String
  deriving DecidableEq, Repr

/-- State of the leader process: the `Leader` struct of `main`, the local
`session_type` of `main`, the environment, the attached event sources, the
actions so far and where the process stands. -/
structure Proc where
  ctx : Ctx
  session_type : Option String
  env : Env
  hup_watch : Bool
  sighup_watch : Bool
  sigterm_watch : Bool
  sigint_watch : Bool
  trace : List Action
  status : Status

/-- Append one action to the trace. -/
def Proc.emit (p : Proc) (a : Action) : Proc :=
  { p with trace := p.trace ++ [a] }

/-- Continue with `f` only while the process is still executing. -/
def Proc.andThen (p : Proc) (f : Proc → Proc) : Proc :=
  if p.status = Status.running then f p else p

/-- GLib `g_error`: log the message and abort. -/
def Proc.g_error (p : Proc) (msg : String) : Proc :=
  { p.emit (.g_error msg) with status := Status.aborted }

/-- GLib `g_setenv` with `overwrite` TRUE, on the process. -/
def Proc.g_setenv (p : Proc) (name value : String) : Proc :=
  { p.emit (.g_setenv name value) with env := env_set p.env name value }

/-- GLib `g_main_loop_quit`: clears the loop's `is_running` flag. -/
def g_main_loop_quit (p : Proc) : Proc :=
  { p with ctx := { p.ctx with loop_running := false } }

/-- The three signals `main` watches. -/
inductive TermSignal where
  | SIGHUP
  | SIGTERM
  | SIGINT
  deriving DecidableEq, Repr

/-- What `write (fd, "S", 1)` can do: fail, write nothing, or write the
byte. -/
inductive WriteOutcome where
  | error
  | wrote_0
  | wrote_1
  deriving DecidableEq, Repr

/-- The value `write` returns. -/
def WriteOutcome.ret : WriteOutcome → Int
  | .error => -1
  | .wrote_0 => 0
  | .wrote_1 => 1

/-- Source `leader_term_or_int_signal_cb` of the leader (lines 110-123).  The
returned flag is `G_SOURCE_REMOVE` (false). -/
def leader_term_or_int_signal_cb (w : WriteOutcome) (p : Proc) : Proc × Bool :=
  let p := p.emit (.g_debug "Session termination requested")
  let p := p.emit (.write p.ctx.fifo_fd "S" w.ret)
  let p := if w.ret < 0 then
      g_main_loop_quit (p.emit (.g_warning "Failed to signal shutdown to monitor: %m"))
    else p
  (p, false)

/-- Source `graphical_session_pre_state_changed_cb` (lines 125-144).
`g_variant_get (value, "&s", &state)` on a value that is no string leaves
`state` uninitialised. -/
def graphical_session_pre_state_changed_cb (changed_properties : Dict) (p : Proc) : Proc :=
  match g_variant_lookup_value changed_properties "ActiveState" with
  | none => p
  | some (.string state) =>
    if g_strcmp0 state "inactive" = 0 then
      g_main_loop_quit (p.emit (.g_debug "Session services now inactive, quitting"))
    else p
  | some .non_string => { p with status := Status.undefined }

/-- Answers of the session bus to the three queries of `monitor_hangup_cb`:
the object path `GetUnit` replies with (or failure), whether the proxy could
be made, and the cached `ActiveState` property. -/
structure HangupQueries where
  unit : Option String
  proxy_ok : Bool
  cached : Option GVariant
  deriving DecidableEq, Repr

/-- Source `monitor_hangup_cb` (lines 146-220).  The returned flag is
`G_SOURCE_REMOVE` (false) on every path. -/
def monitor_hangup_cb (_condition : Nat) (q : HangupQueries) (p : Proc) : Proc × Bool :=
  let p := p.emit
    (.g_debug "Services have begun stopping, waiting for them to finish stopping")
  let p := p.emit
    (.dbus_call "org.freedesktop.systemd1.Manager.GetUnit" "graphical-session-pre.target")
  match q.unit with
  | none =>
    let p := p.emit (.g_warning "Could not get unit for graphical-session-pre.target: %s")
    (g_main_loop_quit p, false)
  | some unit_path =>
    let p := p.emit (.g_dbus_proxy_new_sync unit_path)
    if !q.proxy_ok then
      let p := p.emit
        (.g_warning "Could not get proxy for graphical-session-pre.target unit: %s")
      (g_main_loop_quit p, false)
    else
      let subscribe (p : Proc) : Proc × Bool :=
        let p := p.emit (.g_signal_connect "g-properties-changed")
        ({ p with ctx := { p.ctx with awaiting_shutdown := some unit_path } }, false)
      match q.cached with
      | some (.string state) =>
        if g_strcmp0 state "inactive" = 0 then
          let p := p.emit (.g_debug
            "State of graphical-session-pre.target unit already inactive quitting")
          (g_main_loop_quit p, false)
        else
          subscribe (p.emit (.g_debug
            "State of graphical-session-pre.target unit is \x27%s\x27, waiting for it to go inactive"))
      | some .non_string => ({ p with status := Status.undefined }, false)
      | none =>
        subscribe (p.emit (.g_debug
          "State of graphical-session-pre.target unit is unknown, waiting for it to go inactive"))

/-- An event the main loop of the leader can be woken by: the FIFO source
becoming ready (with the answers the bus will give the handler), a signal
(with what the handler's `write` will do), or a `g-properties-changed` signal
of the unit's proxy. -/
inductive Event where
  | fifo_ready (condition : Nat) (q : HangupQueries)
  | signal (s : TermSignal) (w : WriteOutcome)
  | properties_changed (changed_properties : Dict)
  deriving DecidableEq, Repr

/-- Whether the source of a signal is still attached. -/
def Proc.watches (p : Proc) : TermSignal → Bool
  | .SIGHUP => p.sighup_watch
  | .SIGTERM => p.sigterm_watch
  | .SIGINT => p.sigint_watch

/-- Attach or detach the source of a signal. -/
def Proc.setWatch (p : Proc) (b : Bool) : TermSignal → Proc
  | .SIGHUP => { p with sighup_watch := b }
  | .SIGTERM => { p with sigterm_watch := b }
  | .SIGINT => { p with sigint_watch := b }

/-- Dispatch of one event by the main context: the callback of the source
watching it runs and the source stays attached iff the callback says so.  A
FIFO condition nobody watches wakes nothing; a signal whose source is gone
takes its default action, which for these three signals ends the process; a
property change reaches the handler only once the handler is connected to the
proxy kept in `awaiting_shutdown`. -/
def dispatch (p : Proc) : Event → Proc
  | .fifo_ready condition q =>
    if p.hup_watch then
      let r := monitor_hangup_cb condition q p
      { r.1 with hup_watch := r.2 }
    else p
  | .signal s w =>
    if p.watches s then
      let r := leader_term_or_int_signal_cb w p
      r.1.setWatch r.2 s
    else { p with status := Status.killed }
  | .properties_changed changed_properties =>
    if p.ctx.awaiting_shutdown.isSome then
      graphical_session_pre_state_changed_cb changed_properties p
    else p

/-- The iterations of `g_main_loop_run`: while `is_running` is set, wait for
the next event and dispatch it.  When the events run out with the flag still
set, the process stays blocked in the loop. -/
def iterate : Proc → List Event → Proc
  | p, [] =>
    if p.status = Status.running && p.ctx.loop_running then
      { p with status := Status.blocked }
    else p
  | p, e :: es =>
    if p.status = Status.running && p.ctx.loop_running then
      iterate (dispatch p e) es
    else p

/-- GLib `g_main_loop_run`: sets `is_running`, iterates, and returns once the
flag is cleared. -/
def g_main_loop_run (events : List Event) (p : Proc) : Proc :=
  let p := p.emit .g_main_loop_run
  let p := { p with ctx := { p.ctx with loop_running := true } }
  (iterate p events).andThen fun p => p.emit .g_main_loop_run_returned

/-- Source `leader_clear` (lines 38-46), run when `main` returns. -/
def leader_clear (p : Proc) : Proc :=
  let p := if p.ctx.fifo_fd ≥ 0 then p.emit (.close p.ctx.fifo_fd) else p
  { p with ctx := { p.ctx with session_bus := false, awaiting_shutdown := none } }

/-- Everything `main` of the leader takes from outside. -/
structure Input where
  argc : Nat
  env : Env
  bus_ok : Bool
  runtime_dir : String
  mkfifo_ret : Int
  mkfifo_errno : Nat
  open_ret : Int
  fstat_ret : Int
  st_mode : Nat

/-- The leader process at the start of `main`: `ctx` is zeroed but for
`fifo_fd = -1`. -/
def start (env : Env) : Proc :=
  { ctx := { session_bus := false, loop_running := false, fifo_fd := -1,
             awaiting_shutdown := none }
    session_type := none
    env := env
    hup_watch := false
    sighup_watch := false
    sigterm_watch := false
    sigint_watch := false
    trace := []
    status := Status.running }

/-- Lines 249-262 of `main`: the USER variable and the greeter directories. -/
def setup_user (p : Proc) : Proc :=
  let user := (g_getenv p.env "USER").getD "gdm-greeter"
  let p := p.emit (.g_info "User is: %s")
  if strncmp user "gdm-greeter" (sizeof_literal "gdm-greeter") = 0 then
    let home_dir := "/var/lib/" ++ user
    let config_dir := home_dir ++ "/.config"
    let p := p.g_setenv "XDG_CONFIG_HOME" config_dir
    p.g_setenv "HOME" home_dir
  else
    p.emit (.g_warning
      "The gdm-greeter-\x7b1,2,3,4\x7d user wasn\x27t found. Expect stuff to break.")

/-- Lines 270-272 of `main`: the local variable `session_type`. -/
def setup_session_type (p : Proc) : Proc :=
  let session_type := g_getenv p.env "XDG_SESSION_TYPE"
  let session_type := match session_type with
    | some s => if strcmp s "tty" = 0 then some "wayland" else some s
    | none => none
  { p with session_type := session_type }

/-- Lines 274-286 of `main`: create, open and check the FIFO. -/
def setup_fifo (i : Input) (p : Proc) : Proc :=
  let fifo_path := i.runtime_dir ++ "/" ++ "gnome-session-leader-fifo"
  let p := p.emit (.mkfifo fifo_path 0o666)
  let p := if i.mkfifo_ret < 0 && i.mkfifo_errno != EEXIST then
      p.emit (.g_warning "Failed to create leader FIFO: %m")
    else p
  let p := p.emit (.g_open fifo_path "O_WRONLY | O_CLOEXEC")
  let p := { p with ctx := { p.ctx with fifo_fd := i.open_ret } }
  if p.ctx.fifo_fd < 0 then p.g_error "Failed to watch session: open failed: %m"
  else
    let p := p.emit (.fstat p.ctx.fifo_fd)
    if i.fstat_ret < 0 then p.g_error "Failed to watch session: fstat failed: %m"
    else if !(mode_has_fifo_bit i.st_mode) then
      p.g_error "Failed to watch session: FD is not a FIFO"
    else p

/-- Lines 288-291 of `main`: attach the four sources. -/
def add_sources (p : Proc) : Proc :=
  { p with hup_watch := true, sighup_watch := true, sigterm_watch := true,
           sigint_watch := true }

/-- Source `main`, lines 245-291: everything before the loop is run. -/
def setup (i : Input) : Proc :=
  let p := start i.env
  if i.argc < 2 then p.g_error "No session name was specified"
  else
    let p := setup_user p
    let p := { p with ctx := { p.ctx with loop_running := true } }
    if !i.bus_ok then p.g_error "Failed to obtain session bus: %s"
    else
      let p := { p with ctx := { p.ctx with session_bus := true } }
      let p := setup_session_type p
      (setup_fifo i p).andThen add_sources

/-- Source `main` (lines 232-295): the setup, the loop, and `return 0` with the
cleanup of `ctx`. -/
def main (i : Input) (events : List Event) : Proc :=
  ((setup i).andThen (g_main_loop_run events)).andThen
    fun p => { leader_clear p with status := Status.exited 0 }

/-! ### Notions used to state the properties of the leader -/

/-- Whether `main` gets as far as `g_main_loop_run`: none of its `g_error`
calls is reached. -/
def Input.reaches_loop (i : Input) : Bool :=
  decide (2 ≤ i.argc) && i.bus_ok && decide (0 ≤ i.open_ret) && decide (0 ≤ i.fstat_ret)
    && mode_has_fifo_bit i.st_mode

/-- Whether a value is a string without NUL. -/
def GVariant.is_c_string : GVariant → Bool
  | .string s => decide (IsCString s)
  | .non_string => false

/-- Whether a dictionary of changed properties holds the key "ActiveState"
with the string value "inactive". -/
def reports_inactive (changed_properties : Dict) : Bool :=
  decide (g_variant_lookup_value changed_properties "ActiveState"
    = some (GVariant.string "inactive"))

/-- Whether the value under "ActiveState", when the key is there, is a string
(the type the property has on the bus), without NUL. -/
def active_state_is_string (changed_properties : Dict) : Bool :=
  match g_variant_lookup_value changed_properties "ActiveState" with
  | none => true
  | some v => v.is_c_string

/-- Whether the cached `ActiveState` is absent or some string, without NUL. -/
def cached_is_string (q : HangupQueries) : Bool :=
  match q.cached with
  | none => true
  | some v => v.is_c_string

/-- The three conditions under which `monitor_hangup_cb` ends the run: the
unit is not resolved, the proxy is not made, or the cached state is the
string "inactive". -/
def ends_at_hangup (q : HangupQueries) : Bool :=
  q.unit.isNone || !q.proxy_ok || decide (q.cached = some (GVariant.string "inactive"))

/-- An environment with an ordinary user on a text console. -/
def env_tty : Env := fun name =>
  if name = "USER" then some "alice"
  else if name = "XDG_SESSION_TYPE" then some "tty"
  else if name = "HOME" then some "/home/alice"
  else none

/-- An environment whose user name only starts with the greeter name. -/
def env_greeter_1 : Env := fun name =>
  if name = "USER" then some "gdm-greeter-1"
  else if name = "HOME" then some "/var/lib/gdm-greeter-1"
  else none

/-- Input of a leader whose setup succeeds: the FIFO opens as descriptor 5 and
is a named pipe. -/
def leader_input (env : Env) : Input :=
  { argc := 2, env := env, bus_ok := true, runtime_dir := "/run/user/1000",
    mkfifo_ret := -1, mkfifo_errno := EEXIST, open_ret := 5, fstat_ret := 0,
    st_mode := S_IFIFO ||| 0o644 }

/-- Bus answers for a unit that is still active. -/
def unit_active : HangupQueries :=
  { unit := some "/org/freedesktop/systemd1/unit/graphical_2dsession_2dpre_2etarget",
    proxy_ok := true
    cached := some (GVariant.string "active") }

/-- Bus answers for a unit that is already inactive. -/
def unit_inactive : HangupQueries :=
  { unit := some "/org/freedesktop/systemd1/unit/graphical_2dsession_2dpre_2etarget",
    proxy_ok := true
    cached := some (GVariant.string "inactive") }

/-- The first two steps of `g_main_loop_run`. -/
def armed (p : Proc) : Proc :=
  { p.emit Action.g_main_loop_run with
    ctx := { (p.emit Action.g_main_loop_run).ctx with loop_running := true } }

/-- What `main` does once the loop has stopped iterating: `g_main_loop_run`
returns, `ctx` is cleaned up and `main` returns 0. -/
def finish (q : Proc) : Proc :=
  (q.andThen fun p => p.emit Action.g_main_loop_run_returned).andThen
    fun p => { leader_clear p with status := Status.exited 0 }

/-- Whether a signal of kind `s` occurs among the events. -/
def occurs (s : TermSignal) (events : List Event) : Bool :=
  events.any fun e => match e with
    | .signal s' _ => decide (s' = s)
    | _ => false

/-- Number of distinct signal kinds among the events. -/
def distinct_kinds (events : List Event) : Nat :=
  (occurs .SIGHUP events).toNat + (occurs .SIGTERM events).toNat
    + (occurs .SIGINT events).toNat

/-- Number of signal kinds that are still watched and still to come. -/
def pending_kinds (p : Proc) (events : List Event) : Nat :=
  (p.sighup_watch && occurs .SIGHUP events).toNat
    + (p.sigterm_watch && occurs .SIGTERM events).toNat
    + (p.sigint_watch && occurs .SIGINT events).toNat

end Leader

end GnomeSession

/-! # Properties -/

namespace GnomeSession

/-! ## File modes -/

theorem or_low_and_high (t p k : Nat) (hp : p < 2 ^ 12) :
    (t ||| p) &&& (2 ^ 12 * k) = t &&& (2 ^ 12 * k) := by
  apply Nat.eq_of_testBit_eq
  intro i
  simp only [Nat.testBit_land, Nat.testBit_lor]
  by_cases hi : i < 12
  · have h : (2 ^ 12 * k).testBit i = false := by
      rw [Nat.testBit_mul_pow_two]
      simp [hi]
    rw [h]; simp
  · have h : p.testBit i = false := by
      apply Nat.testBit_lt_two_pow
      calc p < 2 ^ 12 := hp
        _ ≤ 2 ^ i := Nat.pow_le_pow_right (by decide) (by omega)
    rw [h]; simp

theorem fifo_bit_of_type (t perm : Nat) (hp : perm ≤ 0o7777) :
    mode_has_fifo_bit (t ||| perm) = mode_has_fifo_bit t ∧
    mode_is_fifo_exact (t ||| perm) = mode_is_fifo_exact t := by
  have hp12 : perm < 2 ^ 12 := by
    have : (0o7777 : Nat) < 2 ^ 12 := by decide
    omega
  have h1 := or_low_and_high t perm 1 hp12
  have h15 := or_low_and_high t perm 15 hp12
  have e1 : (2 ^ 12 * 1 : Nat) = S_IFIFO := by decide
  have e15 : (2 ^ 12 * 15 : Nat) = S_IFMT := by decide
  rw [e1] at h1
  rw [e15] at h15
  simp only [mode_has_fifo_bit, mode_is_fifo_exact, h1, h15, and_self]


/-! ## C strings -/

theorem char_toNat_sub_ne_zero (a b : Char) (h : a ≠ b) :
    (a.toNat : Int) - (b.toNat : Int) ≠ 0 := by
  intro h0
  apply h
  have e : a.toNat = b.toNat := by omega
  rw [← Char.ofNat_toNat a, ← Char.ofNat_toNat b, e]

theorem strncmp_chars_eq_zero_iff (l2 : List Char) :
    ∀ (l1 : List Char) (n : Nat), NUL ∉ l1 → NUL ∉ l2 → l2.length < n →
      (strncmp_chars l1 l2 n = 0 ↔ l1 = l2) := by
  induction l2 with
  | nil =>
    intro l1 n h1 _ hn
    obtain ⟨m, rfl⟩ : ∃ m, n = m + 1 := ⟨n - 1, by simp at hn; omega⟩
    cases l1 with
    | nil => simp [strncmp_chars]
    | cons a t =>
      have ha : a ≠ NUL := by
        intro h; apply h1; simp [h]
      simp [strncmp_chars, ha, char_toNat_sub_ne_zero a NUL ha]
  | cons b t2 ih =>
    intro l1 n h1 h2 hn
    obtain ⟨m, rfl⟩ : ∃ m, n = m + 1 := ⟨n - 1, by simp at hn; omega⟩
    have hb : b ≠ NUL := by
      intro h; apply h2; simp [h]
    have h2t : NUL ∉ t2 := fun h => h2 (List.mem_cons_of_mem _ h)
    cases l1 with
    | nil =>
      have hb2 : NUL ≠ b := fun h => hb h.symm
      simp [strncmp_chars, hb2, char_toNat_sub_ne_zero NUL b hb2]
    | cons a t1 =>
      have ha : a ≠ NUL := by
        intro h; apply h1; simp [h]
      have h1t : NUL ∉ t1 := fun h => h1 (List.mem_cons_of_mem _ h)
      by_cases hab : a = b
      · subst hab
        have := ih t1 m h1t h2t (by simp at hn; omega)
        simp [strncmp_chars, ha, this]
      · simp [strncmp_chars, hab, char_toNat_sub_ne_zero a b hab]

theorem strncmp_eq_zero_iff (s1 s2 : String) (n : Nat) (h1 : IsCString s1)
    (h2 : IsCString s2) (hn : s2.length < n) : strncmp s1 s2 n = 0 ↔ s1 = s2 := by
  unfold strncmp
  rw [strncmp_chars_eq_zero_iff s2.toList s1.toList n h1 h2 (by simpa using hn)]
  constructor
  · intro h; exact String.ext h
  · intro h; rw [h]

theorem strcmp_eq_zero_iff (s1 s2 : String) (h1 : IsCString s1)
    (h2 : IsCString s2) : strcmp s1 s2 = 0 ↔ s1 = s2 := by
  unfold strcmp
  apply strncmp_eq_zero_iff s1 s2 _ h1 h2
  omega


/-! ## Counting actions -/

theorem spawn_count_append (a b : List Action) :
    spawn_count (a ++ b) = spawn_count a + spawn_count b := by
  simp [spawn_count, List.countP_append]

theorem io_count_append (a b : List Action) :
    io_count (a ++ b) = io_count a + io_count b := by
  simp [io_count, List.countP_append]

theorem bytes_written_append (a b : List Action) :
    bytes_written (a ++ b) = bytes_written a + bytes_written b := by
  induction a with
  | nil => simp [bytes_written]
  | cons x t ih =>
    cases x <;> simp [bytes_written, ih, Nat.add_assoc]

theorem subscription_count_append (a b : List Action) :
    subscription_count (a ++ b) = subscription_count a + subscription_count b := by
  simp [subscription_count, List.countP_append]


/-! ## The monitor -/

namespace Ctl

/-- A loop that is not running, or a process that is not executing,
dispatches nothing. -/
theorem monitor_iterate_stopped (p : Proc) (events : List Event)
    (h : p.status ≠ Status.running ∨ p.data.loop_running = false) :
    iterate p events = p := by
  cases events with
  | nil =>
    simp only [iterate]
    rcases h with h | h <;> simp [h]
  | cons e es =>
    simp only [iterate]
    rcases h with h | h <;> simp [h]

theorem monitor_iterate_nil_running (p : Proc) (hs : p.status = Status.running)
    (hl : p.data.loop_running = true) :
    iterate p [] = { p with status := Status.blocked } := by
  simp [iterate, hs, hl]

theorem monitor_iterate_cons_running (p : Proc) (e : Event) (es : List Event)
    (hs : p.status = Status.running) (hl : p.data.loop_running = true) :
    iterate p (e :: es) = iterate (dispatch p e) es := by
  simp [iterate, hs, hl]

/-- The loop of the monitor, from a state with both signal sources attached. -/
theorem monitor_iterate_char (events : List Event) : ∀ p : Proc,
    p.status = Status.running → p.data.loop_running = true →
    p.sigterm_watch = true → p.sigint_watch = true →
    ∃ t, (iterate p events).trace = p.trace ++ t ∧ spawn_count t = 0 ∧
      Action.g_main_loop_run_returned ∉ t ∧
      (p.fifo_watch = false → t = []) ∧
      (((iterate p events).status = Status.running ∧
          (∃ e ∈ events, ends_run p.fifo_watch e = true)) ∨
       ((iterate p events).status = Status.blocked ∧
          (∀ e ∈ events, ends_run p.fifo_watch e = false))) := by
  induction events with
  | nil =>
    intro p hs hl _ _
    refine ⟨[], ?_, rfl, by simp, fun _ => rfl, Or.inr ⟨?_, by simp⟩⟩ <;>
      simp [iterate, hs, hl]
  | cons e es ih =>
    intro p hs hl ht hi
    have hstep : iterate p (e :: es) = iterate (dispatch p e) es := by
      simp [iterate, hs, hl]
    rw [hstep]
    cases e with
    | sigterm =>
      have hd : iterate (dispatch p Event.sigterm) es = dispatch p Event.sigterm :=
        monitor_iterate_stopped _ _ (Or.inr (by simp [dispatch, ht, leader_term_or_int_signal_cb,
          g_main_loop_quit]))
      rw [hd]
      refine ⟨[], ?_, rfl, by simp, fun _ => rfl, Or.inl ⟨?_, ?_⟩⟩
      · simp [dispatch, ht, leader_term_or_int_signal_cb, g_main_loop_quit]
      · simp [dispatch, ht, leader_term_or_int_signal_cb, g_main_loop_quit, hs]
      · exact ⟨_, List.mem_cons_self _ _, rfl⟩
    | sigint =>
      have hd : iterate (dispatch p Event.sigint) es = dispatch p Event.sigint :=
        monitor_iterate_stopped _ _ (Or.inr (by simp [dispatch, hi, leader_term_or_int_signal_cb,
          g_main_loop_quit]))
      rw [hd]
      refine ⟨[], ?_, rfl, by simp, fun _ => rfl, Or.inl ⟨?_, ?_⟩⟩
      · simp [dispatch, hi, leader_term_or_int_signal_cb, g_main_loop_quit]
      · simp [dispatch, hi, leader_term_or_int_signal_cb, g_main_loop_quit, hs]
      · exact ⟨_, List.mem_cons_self _ _, rfl⟩
    | fifo_ready c =>
      cases hw : p.fifo_watch with
      | false =>
        have hd : dispatch p (Event.fifo_ready c) = p := by simp [dispatch, hw]
        rw [hd]
        obtain ⟨t, h1, h2, h3, h4, h5⟩ := ih p hs hl ht hi
        rw [hw] at h5
        refine ⟨t, h1, h2, h3, fun _ => h4 hw, ?_⟩
        rcases h5 with ⟨h5, e, he, hee⟩ | ⟨h5, h6⟩
        · exact Or.inl ⟨h5, e, List.mem_cons_of_mem _ he, hee⟩
        · refine Or.inr ⟨h5, ?_⟩
          intro e he
          rcases List.mem_cons.1 he with rfl | he
          · simp [ends_run]
          · exact h6 e he
      | true =>
        by_cases hin : (c &&& G_IO_IN != 0) = true
        · have hd : iterate (dispatch p (Event.fifo_ready c)) es
              = dispatch p (Event.fifo_ready c) :=
            monitor_iterate_stopped _ _ (Or.inr (by
              by_cases hh : (c &&& G_IO_HUP != 0) = true <;>
                simp [dispatch, hw, leader_fifo_io_cb, g_main_loop_quit, hin, hh, Proc.emit]))
          rw [hd]
          refine ⟨[.sd_notify "STOPPING=1", .read p.data.fifo_fd 1], ?_, rfl, by simp,
            by simp, Or.inl ⟨?_, ?_⟩⟩
          · by_cases hh : (c &&& G_IO_HUP != 0) = true <;>
              simp [dispatch, hw, leader_fifo_io_cb, g_main_loop_quit, hin, hh, Proc.emit]
          · by_cases hh : (c &&& G_IO_HUP != 0) = true <;>
              simp [dispatch, hw, leader_fifo_io_cb, g_main_loop_quit, hin, hh, Proc.emit, hs]
          · exact ⟨_, List.mem_cons_self _ _, by simp [ends_run, hin]⟩
        · by_cases hh : (c &&& G_IO_HUP != 0) = true
          · have hd : iterate (dispatch p (Event.fifo_ready c)) es
                = dispatch p (Event.fifo_ready c) :=
              monitor_iterate_stopped _ _ (Or.inr (by
                simp [dispatch, hw, leader_fifo_io_cb, g_main_loop_quit, hin, hh, Proc.emit]))
            rw [hd]
            refine ⟨[.sd_notify "STOPPING=1"], ?_, rfl, by simp, by simp, Or.inl ⟨?_, ?_⟩⟩
            · simp [dispatch, hw, leader_fifo_io_cb, g_main_loop_quit, hin, hh, Proc.emit]
            · simp [dispatch, hw, leader_fifo_io_cb, g_main_loop_quit, hin, hh, Proc.emit, hs]
            · exact ⟨_, List.mem_cons_self _ _, by simp [ends_run, hh]⟩
          · have hd : dispatch p (Event.fifo_ready c)
                = { p.emit (.sd_notify "STOPPING=1") with fifo_watch := true } := by
              simp [dispatch, hw, leader_fifo_io_cb, hin, hh]
            rw [hd]
            obtain ⟨t, h1, h2, h3, _, h5⟩ :=
              ih { p.emit (.sd_notify "STOPPING=1") with fifo_watch := true } hs hl ht hi
            refine ⟨Action.sd_notify "STOPPING=1" :: t, ?_, ?_, ?_, by simp, ?_⟩
            · rw [h1]; simp [Proc.emit]
            · have : spawn_count (Action.sd_notify "STOPPING=1" :: t)
                  = spawn_count ([Action.sd_notify "STOPPING=1"] ++ t) := rfl
              rw [this, spawn_count_append, h2]; rfl
            · simp [h3]
            · simp only [hw] at h5 ⊢
              rcases h5 with ⟨h5, e, he, hee⟩ | ⟨h5, h6⟩
              · exact Or.inl ⟨h5, e, List.mem_cons_of_mem _ he, hee⟩
              · refine Or.inr ⟨h5, ?_⟩
                intro e he
                rcases List.mem_cons.1 he with rfl | he
                · simp only [Bool.not_eq_true] at hin hh
                  simp [ends_run, hin, hh]
                · exact h6 e he


theorem monitor_entry_props (sys : Sys) :
    (entry sys).status = Status.running ∧ (entry sys).data.loop_running = true ∧
    (entry sys).sigterm_watch = true ∧ (entry sys).sigint_watch = true ∧
    (entry sys).fifo_watch = sys.fifo_ok ∧ spawn_count (entry sys).trace = 0 ∧
    io_count (entry sys).trace = 0 ∧
    Action.g_main_loop_run_returned ∉ (entry sys).trace ∧
    Action.g_main_loop_run ∉ (entry sys).trace ∧
    (sys.fifo_ok = true → (entry sys).data.fifo_fd = sys.open_ret) := by
  simp only [entry, do_monitor_leader_setup, Sys.fifo_ok, Proc.emit, start]
  by_cases h1 : sys.mkfifo_ret < 0 && sys.mkfifo_errno != EEXIST <;>
  by_cases h2 : sys.open_ret ≥ 0 <;>
  by_cases h3 : sys.fstat_ret < 0 <;>
  by_cases h4 : mode_has_fifo_bit sys.st_mode = true <;>
  simp [h1, h2, h3, h4, spawn_count, io_count]

theorem trigger_actions_props (cfg : Config) (spawn_ok : Bool) :
    spawn_count (trigger_actions cfg spawn_ok) = 1 ∧
    io_count (trigger_actions cfg spawn_ok) = 0 ∧
    (∃ argv rest, trigger_actions cfg spawn_ok = Action.g_spawn_async argv :: rest) := by
  obtain ⟨o⟩ := cfg
  cases o <;> cases spawn_ok <;>
    simp [trigger_actions, do_start_unit, Proc.emit, start, spawn_count, io_count]

theorem do_start_unit_eq (cfg : Config) (spawn_ok : Bool) (unit : String) (p : Proc) :
    do_start_unit cfg spawn_ok unit p
      = { p with trace := p.trace ++ trigger_actions cfg spawn_ok } := by
  obtain ⟨o⟩ := cfg
  cases o <;> cases spawn_ok <;>
    simp [trigger_actions, do_start_unit, Proc.emit, start]

theorem main_monitor_mode (i : Input) (events : List Event)
    (hparse : i.parse_ok = true) (hmode : i.opts = ⟨false, true, false⟩) :
    main i events =
      (((g_main_loop_run events (entry i.sys)).andThen
          (do_start_unit i.cfg i.spawn_ok "gnome-session-shutdown.target")).andThen
        fun p => { p with status := Status.exited 0 }) := by
  simp [main, hparse, hmode, do_monitor_leader, entry]


theorem monitor_g_main_loop_run_eq (events : List Event) (p : Proc) :
    g_main_loop_run events p
      = (iterate (armed p) events).andThen fun p => p.emit Action.g_main_loop_run_returned :=
  rfl

/-- Shape of every trace of the monitor in `--monitor` mode. -/
theorem main_monitor_trace (i : Input) (events : List Event)
    (hparse : i.parse_ok = true) (hmode : i.opts = ⟨false, true, false⟩) :
    ∃ t, spawn_count t = 0 ∧ Action.g_main_loop_run_returned ∉ t ∧
      (i.sys.fifo_ok = false → t = []) ∧
      (((∃ e ∈ events, ends_run i.sys.fifo_ok e = true) ∧
          (main i events).trace = (entry i.sys).trace ++ [Action.g_main_loop_run] ++ t
            ++ [Action.g_main_loop_run_returned] ++ trigger_actions i.cfg i.spawn_ok ∧
          (main i events).status = Status.exited 0) ∨
       ((∀ e ∈ events, ends_run i.sys.fifo_ok e = false) ∧
          (main i events).trace = (entry i.sys).trace ++ [Action.g_main_loop_run] ++ t ∧
          (main i events).status = Status.blocked)) := by
  obtain ⟨hs, hl, ht, hi, hw, -⟩ := monitor_entry_props i.sys
  rw [main_monitor_mode i events hparse hmode, monitor_g_main_loop_run_eq]
  obtain ⟨t, h1, h2, h3, h4, h5⟩ := monitor_iterate_char events (armed (entry i.sys)) hs rfl ht hi
  have hw2 : (armed (entry i.sys)).fifo_watch = i.sys.fifo_ok := hw
  have htr : (armed (entry i.sys)).trace = (entry i.sys).trace ++ [Action.g_main_loop_run] :=
    rfl
  rw [hw2] at h4 h5
  rw [htr] at h1
  generalize iterate (armed (entry i.sys)) events = q at h1 h5 ⊢
  refine ⟨t, h2, h3, h4, ?_⟩
  rcases h5 with ⟨h5, h6⟩ | ⟨h5, h6⟩
  · refine Or.inl ⟨h6, ?_, ?_⟩ <;>
      simp [Proc.andThen, h5, do_start_unit_eq, Proc.emit, h1]
  · refine Or.inr ⟨h6, ?_, ?_⟩ <;>
      simp [Proc.andThen, h5, Proc.emit, h1]

/-- In a trace that spawns nothing before a marker, every spawn comes after
the marker. -/
theorem spawn_after_marker (pre post : List Action) (m : Action)
    (hpre : spawn_count pre = 0) (hm : spawn_count [m] = 0) :
    ∀ a b argv, pre ++ m :: post = a ++ Action.g_spawn_async argv :: b → m ∈ a := by
  intro a b argv h
  rcases List.append_eq_append_iff.1 h with ⟨a', ha, hb⟩ | ⟨c', hc, hd⟩
  · cases a' with
    | nil =>
      simp at hb
      rw [hb.1] at hm
      simp [spawn_count] at hm
    | cons x a'' =>
      simp at hb
      rw [ha, ← hb.1]
      simp
  · cases c' with
    | nil =>
      simp at hd
      rw [← hd.1] at hm
      simp [spawn_count] at hm
    | cons x c'' =>
      simp at hd
      rw [hc, ← hd.1, spawn_count_append] at hpre
      simp [spawn_count] at hpre

theorem no_spawn_of_count_zero (t : List Action) (h : spawn_count t = 0) :
    ∀ a b argv, t ≠ a ++ Action.g_spawn_async argv :: b := by
  intro a b argv ht
  rw [ht, spawn_count_append] at h
  simp [spawn_count] at h

theorem main_no_events (i : Input)
    (hparse : i.parse_ok = true) (hmode : i.opts = ⟨false, true, false⟩) :
    (main i []).trace = (entry i.sys).trace ++ [Action.g_main_loop_run] ∧
    (main i []).status = Status.blocked := by
  obtain ⟨hs, hl, -⟩ := monitor_entry_props i.sys
  rw [main_monitor_mode i [] hparse hmode, monitor_g_main_loop_run_eq]
  rw [monitor_iterate_nil_running (armed (entry i.sys)) hs rfl]
  exact ⟨rfl, rfl⟩

end Ctl

/-! ## The leader -/

namespace Leader

theorem is_c_string_spec (v : GVariant) (h : v.is_c_string = true) :
    ∃ state, v = GVariant.string state ∧ IsCString state := by
  cases v with
  | string s => exact ⟨s, rfl, by simpa [GVariant.is_c_string] using h⟩
  | non_string => simp [GVariant.is_c_string] at h

theorem cached_is_string_spec (q : HangupQueries) (h : cached_is_string q = true) :
    ∀ v, q.cached = some v → ∃ state, v = GVariant.string state ∧ IsCString state := by
  intro v hv
  simp only [cached_is_string, hv] at h
  exact is_c_string_spec v h

theorem active_state_is_string_spec (d : Dict) (h : active_state_is_string d = true) :
    ∀ v, g_variant_lookup_value d "ActiveState" = some v →
      ∃ state, v = GVariant.string state ∧ IsCString state := by
  intro v hv
  simp only [active_state_is_string, hv] at h
  exact is_c_string_spec v h

theorem reports_inactive_iff (d : Dict) :
    reports_inactive d = true ↔
      g_variant_lookup_value d "ActiveState" = some (GVariant.string "inactive") := by
  simp [reports_inactive]

theorem ends_at_hangup_iff (q : HangupQueries) :
    ends_at_hangup q = true ↔
      (q.unit = none ∨ q.proxy_ok = false ∨
        q.cached = some (GVariant.string "inactive")) := by
  simp [ends_at_hangup, or_assoc]


/-- What `monitor_hangup_cb` leaves alone. -/
theorem monitor_hangup_cb_frame (c : Nat) (q : HangupQueries) (p : Proc) :
    (monitor_hangup_cb c q p).2 = false ∧
    (monitor_hangup_cb c q p).1.env = p.env ∧
    (monitor_hangup_cb c q p).1.session_type = p.session_type ∧
    (monitor_hangup_cb c q p).1.sighup_watch = p.sighup_watch ∧
    (monitor_hangup_cb c q p).1.sigterm_watch = p.sigterm_watch ∧
    (monitor_hangup_cb c q p).1.sigint_watch = p.sigint_watch ∧
    bytes_written (monitor_hangup_cb c q p).1.trace = bytes_written p.trace ∧
    subscription_count (monitor_hangup_cb c q p).1.trace ≤ subscription_count p.trace + 1 := by
  obtain ⟨unit, proxy_ok, cached⟩ := q
  cases unit with
  | none =>
    simp [monitor_hangup_cb, Proc.emit, g_main_loop_quit, bytes_written_append,
      subscription_count_append, bytes_written, subscription_count]
  | some path =>
    cases proxy_ok with
    | false =>
      simp [monitor_hangup_cb, Proc.emit, g_main_loop_quit, bytes_written_append,
        subscription_count_append, bytes_written, subscription_count]
    | true =>
      cases cached with
      | none =>
        simp [monitor_hangup_cb, Proc.emit, g_main_loop_quit, bytes_written_append,
          subscription_count_append, bytes_written, subscription_count]
      | some v =>
        cases v with
        | non_string =>
          simp [monitor_hangup_cb, Proc.emit, g_main_loop_quit, bytes_written_append,
            subscription_count_append, bytes_written, subscription_count]
        | string state =>
          by_cases h : g_strcmp0 state "inactive" = 0 <;>
          simp [monitor_hangup_cb, Proc.emit, g_main_loop_quit, bytes_written_append,
            subscription_count_append, bytes_written, subscription_count, h]

theorem state_changed_cb_frame (d : Dict) (p : Proc) :
    (graphical_session_pre_state_changed_cb d p).env = p.env ∧
    (graphical_session_pre_state_changed_cb d p).session_type = p.session_type ∧
    (graphical_session_pre_state_changed_cb d p).hup_watch = p.hup_watch ∧
    (graphical_session_pre_state_changed_cb d p).sighup_watch = p.sighup_watch ∧
    (graphical_session_pre_state_changed_cb d p).sigterm_watch = p.sigterm_watch ∧
    (graphical_session_pre_state_changed_cb d p).sigint_watch = p.sigint_watch ∧
    bytes_written (graphical_session_pre_state_changed_cb d p).trace = bytes_written p.trace ∧
    subscription_count (graphical_session_pre_state_changed_cb d p).trace
      = subscription_count p.trace := by
  unfold graphical_session_pre_state_changed_cb
  cases g_variant_lookup_value d "ActiveState" with
  | none => simp
  | some v =>
    cases v with
    | non_string => simp
    | string state =>
      by_cases h : g_strcmp0 state "inactive" = 0 <;>
      simp [Proc.emit, g_main_loop_quit, bytes_written_append,
        subscription_count_append, bytes_written, subscription_count, h]

theorem signal_cb_frame (w : WriteOutcome) (p : Proc) :
    (leader_term_or_int_signal_cb w p).2 = false ∧
    (leader_term_or_int_signal_cb w p).1.env = p.env ∧
    (leader_term_or_int_signal_cb w p).1.session_type = p.session_type ∧
    (leader_term_or_int_signal_cb w p).1.hup_watch = p.hup_watch ∧
    (leader_term_or_int_signal_cb w p).1.sighup_watch = p.sighup_watch ∧
    (leader_term_or_int_signal_cb w p).1.sigterm_watch = p.sigterm_watch ∧
    (leader_term_or_int_signal_cb w p).1.sigint_watch = p.sigint_watch ∧
    bytes_written (leader_term_or_int_signal_cb w p).1.trace
      = bytes_written p.trace + w.ret.toNat ∧
    subscription_count (leader_term_or_int_signal_cb w p).1.trace
      = subscription_count p.trace := by
  cases w <;>
    simp [leader_term_or_int_signal_cb, WriteOutcome.ret, Proc.emit, g_main_loop_quit,
      bytes_written_append, subscription_count_append, bytes_written, subscription_count]


theorem leader_iterate_stopped (p : Proc) (events : List Event)
    (h : p.status ≠ Status.running ∨ p.ctx.loop_running = false) :
    iterate p events = p := by
  cases events with
  | nil =>
    simp only [iterate]
    rcases h with h | h <;> simp [h]
  | cons e es =>
    simp only [iterate]
    rcases h with h | h <;> simp [h]

theorem leader_iterate_nil_running (p : Proc) (hs : p.status = Status.running)
    (hl : p.ctx.loop_running = true) :
    iterate p [] = { p with status := Status.blocked } := by
  simp [iterate, hs, hl]

theorem leader_iterate_cons_running (p : Proc) (e : Event) (es : List Event)
    (hs : p.status = Status.running) (hl : p.ctx.loop_running = true) :
    iterate p (e :: es) = iterate (dispatch p e) es := by
  simp [iterate, hs, hl]

theorem occurs_cons_signal (s s' : TermSignal) (w : WriteOutcome) (es : List Event) :
    occurs s (Event.signal s' w :: es) = (decide (s' = s) || occurs s es) := by
  simp [occurs, List.any_cons]

theorem occurs_cons_fifo (s : TermSignal) (c : Nat) (q : HangupQueries) (es : List Event) :
    occurs s (Event.fifo_ready c q :: es) = occurs s es := by
  simp [occurs, List.any_cons]

theorem occurs_cons_changed (s : TermSignal) (d : Dict) (es : List Event) :
    occurs s (Event.properties_changed d :: es) = occurs s es := by
  simp [occurs, List.any_cons]

theorem toNat_and_le (a b c d : Bool) (h1 : a = true → c = true) (h2 : b = true → d = true) :
    (a && b).toNat ≤ (c && d).toNat := by
  cases a <;> cases b <;> cases c <;> cases d <;> simp_all

/-- One dispatch: the bytes it writes are paid for by a kind that stops being
pending. -/
theorem dispatch_bytes (p : Proc) (e : Event) (es : List Event) :
    bytes_written (dispatch p e).trace + pending_kinds (dispatch p e) es
      ≤ bytes_written p.trace + pending_kinds p (e :: es) := by
  cases e with
  | fifo_ready c q =>
    obtain ⟨-, -, -, h1, h2, h3, h4, -⟩ := monitor_hangup_cb_frame c q p
    simp only [dispatch]
    split_ifs
    · simp only [pending_kinds, h1, h2, h3, h4, occurs_cons_fifo, occurs_cons_changed]
      omega
    · simp only [pending_kinds, occurs_cons_fifo, occurs_cons_changed]
      omega
  | properties_changed d =>
    obtain ⟨-, -, -, h1, h2, h3, h4, -⟩ := state_changed_cb_frame d p
    simp only [dispatch]
    split_ifs
    · simp only [pending_kinds, h1, h2, h3, h4, occurs_cons_fifo, occurs_cons_changed]
      omega
    · simp only [pending_kinds, occurs_cons_fifo, occurs_cons_changed]
      omega
  | signal s w =>
    obtain ⟨-, -, -, -, h1, h2, h3, h4, -⟩ := signal_cb_frame w p
    have hw : w.ret.toNat ≤ 1 := by cases w <;> decide
    simp only [dispatch]
    split_ifs with hwatch
    · have hr : (leader_term_or_int_signal_cb w p).2 = false := rfl
      cases s <;> simp only [Proc.watches] at hwatch <;>
        simp only [hr, Proc.setWatch, pending_kinds, h1, h2, h3, h4, hwatch, occurs_cons_signal,
          decide_True, decide_False, Bool.true_or, Bool.false_or, Bool.and_true,
          Bool.false_and, Bool.true_and, Bool.toNat_true, Bool.toNat_false, reduceCtorEq] <;>
        omega
    · simp only [pending_kinds, occurs_cons_signal]
      have a1 := toNat_and_le p.sighup_watch (occurs .SIGHUP es) p.sighup_watch
        (decide (s = .SIGHUP) || occurs .SIGHUP es) id (by intro h; simp [h])
      have a2 := toNat_and_le p.sigterm_watch (occurs .SIGTERM es) p.sigterm_watch
        (decide (s = .SIGTERM) || occurs .SIGTERM es) id (by intro h; simp [h])
      have a3 := toNat_and_le p.sigint_watch (occurs .SIGINT es) p.sigint_watch
        (decide (s = .SIGINT) || occurs .SIGINT es) id (by intro h; simp [h])
      omega

theorem iterate_bytes (events : List Event) : ∀ p : Proc,
    bytes_written (iterate p events).trace
      ≤ bytes_written p.trace + pending_kinds p events := by
  induction events with
  | nil =>
    intro p
    simp only [iterate]
    split_ifs <;> simp
  | cons e es ih =>
    intro p
    simp only [iterate]
    split_ifs
    · exact (ih _).trans (dispatch_bytes p e es)
    · simp


theorem leader_g_main_loop_run_eq (events : List Event) (p : Proc) :
    g_main_loop_run events p
      = (iterate (armed p) events).andThen fun p => p.emit Action.g_main_loop_run_returned :=
  rfl

theorem setup_user_props (env : Env) :
    (setup_user (start env)).status = Status.running ∧
    bytes_written (setup_user (start env)).trace = 0 ∧
    io_count (setup_user (start env)).trace = 0 ∧
    subscription_count (setup_user (start env)).trace = 0 ∧
    Action.g_main_loop_run ∉ (setup_user (start env)).trace ∧
    (setup_user (start env)).ctx.fifo_fd = -1 ∧
    (setup_user (start env)).ctx.awaiting_shutdown = none := by
  by_cases hu : strncmp ((g_getenv env "USER").getD "gdm-greeter") "gdm-greeter"
      (sizeof_literal "gdm-greeter") = 0 <;>
    simp [setup_user, hu, Proc.emit, Proc.g_setenv, start, bytes_written, io_count,
      subscription_count]

theorem setup_fifo_props (i : Input) (p : Proc) (hs : p.status = Status.running) :
    (setup_fifo i p).env = p.env ∧ (setup_fifo i p).session_type = p.session_type ∧
    bytes_written (setup_fifo i p).trace = bytes_written p.trace ∧
    io_count (setup_fifo i p).trace = io_count p.trace ∧
    subscription_count (setup_fifo i p).trace = subscription_count p.trace ∧
    (Action.g_main_loop_run ∈ (setup_fifo i p).trace ↔ Action.g_main_loop_run ∈ p.trace) ∧
    (setup_fifo i p).ctx.awaiting_shutdown = p.ctx.awaiting_shutdown ∧
    (setup_fifo i p).ctx.loop_running = p.ctx.loop_running ∧
    ((0 ≤ i.open_ret ∧ 0 ≤ i.fstat_ret ∧ mode_has_fifo_bit i.st_mode = true) →
      (setup_fifo i p).status = Status.running ∧ (setup_fifo i p).ctx.fifo_fd = i.open_ret) ∧
    (¬ (0 ≤ i.open_ret ∧ 0 ≤ i.fstat_ret ∧ mode_has_fifo_bit i.st_mode = true) →
      (setup_fifo i p).status = Status.aborted) := by
  by_cases h1 : i.mkfifo_ret < 0 && i.mkfifo_errno != EEXIST <;>
  by_cases h2 : i.open_ret < 0 <;>
  by_cases h3 : i.fstat_ret < 0 <;>
  by_cases h4 : mode_has_fifo_bit i.st_mode = true <;>
  simp [setup_fifo, h1, h2, h3, h4, Proc.emit, Proc.g_error, bytes_written_append,
      io_count_append, subscription_count_append, bytes_written, io_count,
      subscription_count, hs]


/-- The state `main` reaches before the loop. -/
theorem setup_props (i : Input) :
    (setup i).env = (if i.argc < 2 then i.env else (setup_user (start i.env)).env) ∧
    bytes_written (setup i).trace = 0 ∧
    io_count (setup i).trace = 0 ∧
    subscription_count (setup i).trace = 0 ∧
    Action.g_main_loop_run ∉ (setup i).trace ∧
    (setup i).ctx.awaiting_shutdown = none ∧
    (i.reaches_loop = true →
      (setup i).status = Status.running ∧ (setup i).ctx.fifo_fd = i.open_ret ∧
      (setup i).hup_watch = true ∧ (setup i).sighup_watch = true ∧
      (setup i).sigterm_watch = true ∧ (setup i).sigint_watch = true) ∧
    (i.reaches_loop = false → (setup i).status = Status.aborted) := by
  obtain ⟨u1, u2, u3, u4, u5, u6, u7⟩ := setup_user_props i.env
  by_cases h1 : i.argc < 2
  · have hr : i.reaches_loop = false := by
      simp [Input.reaches_loop]; intro h; omega
    simp [setup, h1, hr, Proc.g_error, Proc.emit, start, bytes_written, io_count,
      subscription_count]
  · cases h2 : i.bus_ok with
    | false =>
      have hr : i.reaches_loop = false := by simp [Input.reaches_loop, h2]
      have c1 : ∀ m, bytes_written [Action.g_error m] = 0 := fun _ => rfl
      have c2 : ∀ m, io_count [Action.g_error m] = 0 := fun _ => rfl
      have c3 : ∀ m, subscription_count [Action.g_error m] = 0 := fun _ => rfl
      simp [setup, h1, h2, hr, Proc.g_error, Proc.emit, bytes_written_append,
        io_count_append, subscription_count_append, u2, u3, u4, u5, u7, c1, c2, c3]
    | true =>
      simp only [setup, h1, h2, if_false, Bool.not_true]
      generalize hq : setup_session_type
        { (setup_user (start i.env)) with
          ctx := { session_bus := true, loop_running := true,
                   fifo_fd := (setup_user (start i.env)).ctx.fifo_fd,
                   awaiting_shutdown := (setup_user (start i.env)).ctx.awaiting_shutdown } }
        = q
      have hqs : q.status = Status.running := by rw [← hq]; exact u1
      have hqe : q.env = (setup_user (start i.env)).env := by rw [← hq]; rfl
      have hqt : q.trace = (setup_user (start i.env)).trace := by rw [← hq]; rfl
      have hqa : q.ctx.awaiting_shutdown = none := by rw [← hq]; exact u7
      obtain ⟨f1, f2, f3, f4, f5, f6, f7, f8, f9, f10⟩ := setup_fifo_props i q hqs
      by_cases hok : 0 ≤ i.open_ret ∧ 0 ≤ i.fstat_ret ∧ mode_has_fifo_bit i.st_mode = true
      · obtain ⟨g1, g2⟩ := f9 hok
        have hr : i.reaches_loop = true := by
          simp [Input.reaches_loop, h2, hok]; omega
        simp [Proc.andThen, g1, add_sources, f1, f3, f4, f5, f6, f7, g2, hqe, hqt, hqa, hr,
          u2, u3, u4, u5]
      · have g1 := f10 hok
        have hr : i.reaches_loop = false := by
          simp only [Input.reaches_loop, h2]
          simp only [not_and] at hok
          by_cases a : 0 ≤ i.open_ret <;> by_cases b : 0 ≤ i.fstat_ret <;> simp [a, b]
          simpa using fun _ => hok a b
        simp [Proc.andThen, g1, f1, f3, f4, f5, f6, f7, hqe, hqt, hqa, hr, u2, u3, u4, u5]


theorem main_of_reaches_loop (i : Input) (events : List Event)
    (h : i.reaches_loop = true) :
    main i events = finish (iterate (armed (setup i)) events) := by
  obtain ⟨-, -, -, -, -, -, hr, -⟩ := setup_props i
  obtain ⟨hs, -⟩ := hr h
  simp only [main, Proc.andThen, hs, if_true, leader_g_main_loop_run_eq, finish]

theorem main_of_not_reaches_loop (i : Input) (events : List Event)
    (h : i.reaches_loop = false) :
    main i events = setup i ∧ (setup i).status = Status.aborted := by
  obtain ⟨-, -, -, -, -, -, -, hr⟩ := setup_props i
  have hs := hr h
  simp [main, Proc.andThen, hs]

theorem finish_props (q : Proc) :
    (finish q).env = q.env ∧ (finish q).session_type = q.session_type ∧
    bytes_written (finish q).trace = bytes_written q.trace ∧
    subscription_count (finish q).trace = subscription_count q.trace ∧
    (finish q).status = (if q.status = Status.running then Status.exited 0 else q.status) := by
  by_cases hs : q.status = Status.running <;>
  by_cases hf : q.ctx.fifo_fd ≥ 0 <;>
  simp [finish, Proc.andThen, hs, hf, leader_clear, Proc.emit, bytes_written_append,
    subscription_count_append, bytes_written, subscription_count]

theorem leader_armed_props (p : Proc) :
    (armed p).status = p.status ∧ (armed p).ctx.loop_running = true ∧
    (armed p).env = p.env ∧ (armed p).session_type = p.session_type ∧
    (armed p).hup_watch = p.hup_watch ∧ (armed p).sighup_watch = p.sighup_watch ∧
    (armed p).sigterm_watch = p.sigterm_watch ∧ (armed p).sigint_watch = p.sigint_watch ∧
    (armed p).ctx.awaiting_shutdown = p.ctx.awaiting_shutdown ∧
    (armed p).ctx.fifo_fd = p.ctx.fifo_fd ∧
    bytes_written (armed p).trace = bytes_written p.trace ∧
    subscription_count (armed p).trace = subscription_count p.trace := by
  simp [armed, Proc.emit, bytes_written_append, subscription_count_append, bytes_written,
    subscription_count]

/-- One dispatch connects at most one handler, and only by using up the FIFO
source. -/
theorem dispatch_subscriptions (p : Proc) (e : Event) :
    subscription_count (dispatch p e).trace + (dispatch p e).hup_watch.toNat
      ≤ subscription_count p.trace + p.hup_watch.toNat := by
  cases e with
  | fifo_ready c q =>
    obtain ⟨h0, -, -, -, -, -, -, h1⟩ := monitor_hangup_cb_frame c q p
    simp only [dispatch]
    split_ifs with hw
    · simp only [h0, hw, Bool.toNat_true, Bool.toNat_false]
      omega
    · exact Nat.le_refl _
  | properties_changed d =>
    obtain ⟨-, -, h0, -, -, -, -, h1⟩ := state_changed_cb_frame d p
    simp only [dispatch]
    split_ifs
    · rw [h0, h1]
    · exact Nat.le_refl _
  | signal s w =>
    obtain ⟨-, -, -, h0, -, -, -, -, h1⟩ := signal_cb_frame w p
    simp only [dispatch]
    split_ifs
    · cases s <;> simp only [Proc.setWatch, h0, h1] <;> exact Nat.le_refl _
    · exact Nat.le_refl _

theorem iterate_subscriptions (events : List Event) : ∀ p : Proc,
    subscription_count (iterate p events).trace
      ≤ subscription_count p.trace + p.hup_watch.toNat := by
  induction events with
  | nil =>
    intro p
    simp only [iterate]
    split_ifs <;> simp
  | cons e es ih =>
    intro p
    simp only [iterate]
    split_ifs
    · have h1 := ih (dispatch p e)
      have h2 := dispatch_subscriptions p e
      omega
    · simp

theorem main_subscriptions (i : Input) (events : List Event) :
    subscription_count (main i events).trace ≤ 1 := by
  cases h : i.reaches_loop with
  | false =>
    obtain ⟨-, -, -, hb, -⟩ := setup_props i
    rw [(main_of_not_reaches_loop i events h).1, hb]
    exact Nat.zero_le _
  | true =>
    obtain ⟨-, -, -, hb, -, -, hr, -⟩ := setup_props i
    obtain ⟨-, -, w0, -⟩ := hr h
    obtain ⟨-, -, -, -, a0, -, -, -, -, -, -, a4⟩ := leader_armed_props (setup i)
    rw [main_of_reaches_loop i events h, (finish_props _).2.2.2.1]
    have := iterate_subscriptions events (armed (setup i))
    rw [a0, a4, w0, hb] at this
    simpa using this

/-- How `monitor_hangup_cb` decides. -/
theorem monitor_hangup_cb_decides (c : Nat) (q : HangupQueries) (p : Proc)
    (hq : cached_is_string q = true)
    (hl : p.ctx.loop_running = true) (ha : p.ctx.awaiting_shutdown = none) :
    (monitor_hangup_cb c q p).2 = false ∧
    (monitor_hangup_cb c q p).1.status = p.status ∧
    (((monitor_hangup_cb c q p).1.ctx.loop_running = false ∧
        (monitor_hangup_cb c q p).1.ctx.awaiting_shutdown = none ∧
        subscription_count (monitor_hangup_cb c q p).1.trace = subscription_count p.trace) ∨
      ((monitor_hangup_cb c q p).1.ctx.loop_running = true ∧
        (monitor_hangup_cb c q p).1.ctx.awaiting_shutdown = q.unit ∧ q.unit ≠ none ∧
        subscription_count (monitor_hangup_cb c q p).1.trace
          = subscription_count p.trace + 1)) ∧
    ((monitor_hangup_cb c q p).1.ctx.loop_running = false ↔
      ends_at_hangup q = true) := by
  have hq := cached_is_string_spec q hq
  rw [ends_at_hangup_iff]
  obtain ⟨unit, proxy_ok, cached⟩ := q
  cases unit with
  | none =>
    simp [monitor_hangup_cb, Proc.emit, g_main_loop_quit, ha, subscription_count_append,
      subscription_count]
  | some path =>
    cases proxy_ok with
    | false =>
      simp [monitor_hangup_cb, Proc.emit, g_main_loop_quit, ha, subscription_count_append,
        subscription_count]
    | true =>
      cases cached with
      | none =>
        simp [monitor_hangup_cb, Proc.emit, g_main_loop_quit, hl, subscription_count_append,
          subscription_count]
      | some v =>
        obtain ⟨state, rfl, hc⟩ := hq v rfl
        have hiff : g_strcmp0 state "inactive" = 0 ↔ state = "inactive" :=
          strcmp_eq_zero_iff state "inactive" hc (by decide)
        by_cases h : g_strcmp0 state "inactive" = 0
        · have hst := hiff.1 h
          subst hst
          simp [monitor_hangup_cb, Proc.emit, g_main_loop_quit, ha, h,
            subscription_count_append, subscription_count]
        · have hst : ¬ state = "inactive" := fun e => h (hiff.2 e)
          simp [monitor_hangup_cb, Proc.emit, g_main_loop_quit, hl, h, hst,
            subscription_count_append, subscription_count]


/-- No dispatch touches the environment or the local `session_type`. -/
theorem dispatch_env (p : Proc) (e : Event) :
    (dispatch p e).env = p.env ∧ (dispatch p e).session_type = p.session_type := by
  cases e with
  | fifo_ready c q =>
    obtain ⟨-, h1, h2, -⟩ := monitor_hangup_cb_frame c q p
    simp only [dispatch]
    split_ifs
    · exact ⟨h1, h2⟩
    · exact ⟨rfl, rfl⟩
  | properties_changed d =>
    obtain ⟨h1, h2, -⟩ := state_changed_cb_frame d p
    simp only [dispatch]
    split_ifs
    · exact ⟨h1, h2⟩
    · exact ⟨rfl, rfl⟩
  | signal s w =>
    obtain ⟨-, h1, h2, -⟩ := signal_cb_frame w p
    simp only [dispatch]
    split_ifs
    · cases s <;> exact ⟨h1, h2⟩
    · exact ⟨rfl, rfl⟩

theorem iterate_env (events : List Event) : ∀ p : Proc,
    (iterate p events).env = p.env ∧ (iterate p events).session_type = p.session_type := by
  induction events with
  | nil =>
    intro p
    simp only [iterate]
    split_ifs <;> exact ⟨rfl, rfl⟩
  | cons e es ih =>
    intro p
    simp only [iterate]
    split_ifs
    · exact ⟨(ih _).1.trans (dispatch_env p e).1, (ih _).2.trans (dispatch_env p e).2⟩
    · exact ⟨rfl, rfl⟩

/-- The loop and the exit of `main` leave the environment and the local
`session_type` as the setup left them. -/
theorem main_env (i : Input) (events : List Event) :
    (main i events).env = (setup i).env ∧
    (main i events).session_type = (setup i).session_type := by
  cases h : i.reaches_loop with
  | false => rw [(main_of_not_reaches_loop i events h).1]; exact ⟨rfl, rfl⟩
  | true =>
    obtain ⟨-, -, a1, a2, -⟩ := leader_armed_props (setup i)
    obtain ⟨f1, f2, -⟩ := finish_props (iterate (armed (setup i)) events)
    obtain ⟨i1, i2⟩ := iterate_env events (armed (setup i))
    rw [main_of_reaches_loop i events h, f1, f2, i1, i2, a1, a2]
    exact ⟨rfl, rfl⟩

/-- The environment after lines 249-262, for a USER value that is a C
string. -/
theorem setup_user_env (env : Env) (hc : ∀ u, g_getenv env "USER" = some u → IsCString u) :
    (setup_user (start env)).env =
      if g_getenv env "USER" = none ∨ g_getenv env "USER" = some "gdm-greeter" then
        env_set (env_set env "XDG_CONFIG_HOME" "/var/lib/gdm-greeter/.config")
          "HOME" "/var/lib/gdm-greeter"
      else env := by
  have hlit : IsCString "gdm-greeter" := by decide
  have hlen : "gdm-greeter".length < sizeof_literal "gdm-greeter" := by decide
  cases hu : g_getenv env "USER" with
  | none =>
    have h0 : strncmp "gdm-greeter" "gdm-greeter" (sizeof_literal "gdm-greeter") = 0 :=
      (strncmp_eq_zero_iff _ _ _ hlit hlit hlen).2 rfl
    have e1 : "/var/lib/" ++ "gdm-greeter" = "/var/lib/gdm-greeter" := by decide
    have e2 : "/var/lib/gdm-greeter" ++ "/.config" = "/var/lib/gdm-greeter/.config" := by
      decide
    simp [setup_user, hu, h0, Proc.emit, Proc.g_setenv, start, e1, e2]
  | some u =>
    have hiff := strncmp_eq_zero_iff u "gdm-greeter" _ (hc u hu) hlit hlen
    by_cases hug : u = "gdm-greeter"
    · subst hug
      have e1 : "/var/lib/" ++ "gdm-greeter" = "/var/lib/gdm-greeter" := by decide
      have e2 : "/var/lib/gdm-greeter" ++ "/.config" = "/var/lib/gdm-greeter/.config" := by
        decide
      simp [setup_user, hu, hiff.2 rfl, Proc.emit, Proc.g_setenv, start, e1, e2]
    · have hne : ¬ strncmp u "gdm-greeter" (sizeof_literal "gdm-greeter") = 0 :=
        fun h => hug (hiff.1 h)
      simp [setup_user, hu, hne, hug, Proc.emit, start]

/-- Lines 249-262 never touch XDG_SESSION_TYPE. -/
theorem setup_user_session_type (env : Env) :
    g_getenv (setup_user (start env)).env "XDG_SESSION_TYPE"
      = g_getenv env "XDG_SESSION_TYPE" := by
  by_cases hu : strncmp ((g_getenv env "USER").getD "gdm-greeter") "gdm-greeter"
      (sizeof_literal "gdm-greeter") = 0
  · have n1 : ¬ ("XDG_SESSION_TYPE" = "HOME") := by decide
    have n2 : ¬ ("XDG_SESSION_TYPE" = "XDG_CONFIG_HOME") := by decide
    simp only [g_getenv] at hu ⊢
    simp [setup_user, hu, Proc.emit, Proc.g_setenv, start, env_set, g_getenv, n1, n2]
  · simp only [g_getenv] at hu ⊢
    simp [setup_user, hu, Proc.emit, start, g_getenv]

/-- The leader never changes XDG_SESSION_TYPE in its environment. -/
theorem main_session_type_env (i : Input) (events : List Event) :
    g_getenv (main i events).env "XDG_SESSION_TYPE" = g_getenv i.env "XDG_SESSION_TYPE" := by
  rw [(main_env i events).1, (setup_props i).1]
  split_ifs
  · rfl
  · exact setup_user_session_type i.env

/-- The state of the leader when the loop starts iterating. -/
theorem armed_setup_props (i : Input) (h : i.reaches_loop = true) :
    (armed (setup i)).status = Status.running ∧
    (armed (setup i)).ctx.loop_running = true ∧
    (armed (setup i)).hup_watch = true ∧
    (∀ s, (armed (setup i)).watches s = true) ∧
    (armed (setup i)).ctx.awaiting_shutdown = none := by
  obtain ⟨-, -, -, -, -, ha, hr, -⟩ := setup_props i
  obtain ⟨hs, -, w0, w1, w2, w3⟩ := hr h
  obtain ⟨a0, a1, -, -, a2, a3, a4, a5, a6, -⟩ := leader_armed_props (setup i)
  refine ⟨a0.trans hs, a1, a2.trans w0, ?_, a6.trans ha⟩
  intro s
  cases s
  · exact a3.trans w1
  · exact a4.trans w2
  · exact a5.trans w3

theorem finish_running (q : Proc) (h : q.status = Status.running) :
    (finish q).status = Status.exited 0 := by
  rw [(finish_props q).2.2.2.2, if_pos h]

theorem finish_blocked (q : Proc) (h : q.status = Status.blocked) :
    (finish q).status = Status.blocked := by
  rw [(finish_props q).2.2.2.2, h]; rfl

/-- A notification that does not report "inactive" changes nothing. -/
theorem state_changed_cb_quiet (d : Dict) (p : Proc)
    (ht : active_state_is_string d = true) (hn : reports_inactive d = false) :
    graphical_session_pre_state_changed_cb d p = p := by
  unfold graphical_session_pre_state_changed_cb
  have hn : ¬ g_variant_lookup_value d "ActiveState"
      = some (GVariant.string "inactive") := by
    intro h
    rw [(reports_inactive_iff d).2 h] at hn
    exact absurd hn (by simp)
  have ht := active_state_is_string_spec d ht
  cases hl : g_variant_lookup_value d "ActiveState" with
  | none => rfl
  | some v =>
    obtain ⟨state, rfl, hc⟩ := ht v hl
    have hne : state ≠ "inactive" := by
      intro h; apply hn; rw [hl, h]
    have : ¬ g_strcmp0 state "inactive" = 0 :=
      fun h => hne ((strcmp_eq_zero_iff state "inactive" hc (by decide)).1 h)
    simp [this]

/-- A notification that reports "inactive" ends the run. -/
theorem state_changed_cb_inactive (d : Dict) (p : Proc) (hd : reports_inactive d = true) :
    graphical_session_pre_state_changed_cb d p
      = g_main_loop_quit (p.emit (Action.g_debug "Session services now inactive, quitting")) := by
  unfold graphical_session_pre_state_changed_cb
  have hd := (reports_inactive_iff d).1 hd
  have h0 : g_strcmp0 "inactive" "inactive" = 0 :=
    (strcmp_eq_zero_iff "inactive" "inactive" (by decide) (by decide)).2 rfl
  rw [hd]
  simp [h0]

/-- Notifications that do not report "inactive" are dispatched without
effect. -/
theorem iterate_quiet (pre : List Dict) (rest : List Event) (p : Proc)
    (hs : p.status = Status.running) (hl : p.ctx.loop_running = true)
    (hpre : ∀ d ∈ pre, active_state_is_string d = true ∧ reports_inactive d = false) :
    iterate p (pre.map Event.properties_changed ++ rest) = iterate p rest := by
  induction pre with
  | nil => rfl
  | cons d ds ih =>
    have hd := hpre d (List.mem_cons_self _ _)
    have hdisp : dispatch p (Event.properties_changed d) = p := by
      simp only [dispatch]
      split_ifs
      · exact state_changed_cb_quiet d p hd.1 hd.2
      · rfl
    rw [List.map_cons, List.cons_append, leader_iterate_cons_running _ _ _ hs hl, hdisp]
    exact ih fun d' hd' => hpre d' (List.mem_cons_of_mem _ hd')

/-- The leader right after the hang-up handler has run. -/
theorem after_hangup (i : Input) (c : Nat) (q : HangupQueries) (rest : List Event)
    (hi : i.reaches_loop = true) (hq : cached_is_string q = true) :
    main i (Event.fifo_ready c q :: rest)
      = finish (iterate (dispatch (armed (setup i)) (Event.fifo_ready c q)) rest) ∧
    (dispatch (armed (setup i)) (Event.fifo_ready c q)).status = Status.running ∧
    (dispatch (armed (setup i)) (Event.fifo_ready c q)).hup_watch = false ∧
    (ends_at_hangup q = true →
      (dispatch (armed (setup i)) (Event.fifo_ready c q)).ctx.loop_running = false ∧
      subscription_count (dispatch (armed (setup i)) (Event.fifo_ready c q)).trace = 0) ∧
    (ends_at_hangup q = false →
      (dispatch (armed (setup i)) (Event.fifo_ready c q)).ctx.loop_running = true ∧
      (dispatch (armed (setup i)) (Event.fifo_ready c q)).ctx.awaiting_shutdown.isSome = true ∧
      subscription_count (dispatch (armed (setup i)) (Event.fifo_ready c q)).trace = 1) := by
  obtain ⟨a0, a1, a2, -, a4⟩ := armed_setup_props i hi
  obtain ⟨-, -, -, hb, -⟩ := setup_props i
  have a5 : subscription_count (armed (setup i)).trace = 0 :=
    (leader_armed_props (setup i)).2.2.2.2.2.2.2.2.2.2.2.trans hb
  obtain ⟨d0, d1, d2, d3⟩ := monitor_hangup_cb_decides c q (armed (setup i)) hq a1 a4
  have hd : dispatch (armed (setup i)) (Event.fifo_ready c q)
      = { (monitor_hangup_cb c q (armed (setup i))).1 with hup_watch := false } := by
    simp only [dispatch, a2, if_true, d0]
  rw [main_of_reaches_loop i _ hi, leader_iterate_cons_running _ _ _ a0 a1, hd]
  refine ⟨rfl, d1.trans a0, rfl, ?_, ?_⟩
  · intro he
    have hstop := d3.2 he
    rcases d2 with ⟨-, -, h3⟩ | ⟨h1, -⟩
    · exact ⟨hstop, h3.trans a5⟩
    · rw [hstop] at h1; exact absurd h1 (by simp)
  · intro he
    rcases d2 with ⟨h1, -⟩ | ⟨h1, h2, h3, h4⟩
    · rw [d3.1 h1] at he
      exact absurd he (by simp)
    · refine ⟨h1, ?_, by rw [h4, a5]⟩
      show (monitor_hangup_cb c q (armed (setup i))).1.ctx.awaiting_shutdown.isSome = true
      rw [h2]
      cases hu : q.unit with
      | none => exact absurd hu h3
      | some _ => rfl

end Leader

/-! ## The claims -/

namespace Ctl

/-- C1: in `--monitor` mode with the FIFO watched, a wake of `leader_fifo_io_cb`
whose condition has `G_IO_IN`, `G_IO_HUP` or both set makes the trace exactly:
what the monitor did before any event (its setup, ending with the entry into
the loop, with no announcement of stopping, no read and no spawn in it), then
the "STOPPING=1" announcement, then a read of one byte from the FIFO if and
only if `G_IO_IN` is set, then the return of the loop, then the actions of one
call of `do_start_unit`, which spawn exactly one process.  Later events change
nothing, and the whole trace holds exactly one spawn. -/
theorem monitor_fifo_wake_trace (i : Input) (condition : Nat) (rest : List Event)
    (hparse : i.parse_ok = true) (hmode : i.opts = ⟨false, true, false⟩)
    (hfifo : i.sys.fifo_ok = true)
    (hwake : condition &&& G_IO_IN ≠ 0 ∨ condition &&& G_IO_HUP ≠ 0) :
    (main i (Event.fifo_ready condition :: rest)).trace =
      (main i []).trace
        ++ [Action.sd_notify "STOPPING=1"]
        ++ (if condition &&& G_IO_IN ≠ 0 then [Action.read i.sys.open_ret 1] else [])
        ++ [Action.g_main_loop_run_returned]
        ++ trigger_actions i.cfg i.spawn_ok ∧
    spawn_count (trigger_actions i.cfg i.spawn_ok) = 1 ∧
    (main i []).status = Status.blocked ∧
    spawn_count (main i []).trace = 0 ∧
    io_count (main i []).trace = 0 ∧
    Action.sd_notify "STOPPING=1" ∉ (main i []).trace ∧
    spawn_count (main i (Event.fifo_ready condition :: rest)).trace = 1 := by
  obtain ⟨hs, hl, ht, hi, hw, he1, he2, he3, he4, hfd⟩ := monitor_entry_props i.sys
  obtain ⟨h0t, h0s⟩ := main_no_events i hparse hmode
  have h0c : spawn_count (main i []).trace = 0 := by
    rw [h0t, spawn_count_append, he1]; rfl
  have htrace : (main i (Event.fifo_ready condition :: rest)).trace =
      (main i []).trace
        ++ [Action.sd_notify "STOPPING=1"]
        ++ (if condition &&& G_IO_IN ≠ 0 then [Action.read i.sys.open_ret 1] else [])
        ++ [Action.g_main_loop_run_returned]
        ++ trigger_actions i.cfg i.spawn_ok := by
    rw [h0t, main_monitor_mode i _ hparse hmode, monitor_g_main_loop_run_eq]
    have hs2 : (armed (entry i.sys)).status = Status.running := hs
    have hw2 : (armed (entry i.sys)).fifo_watch = true := hw.trans hfifo
    have hfd2 : (armed (entry i.sys)).data.fifo_fd = i.sys.open_ret := hfd hfifo
    have htr : (armed (entry i.sys)).trace
        = (entry i.sys).trace ++ [Action.g_main_loop_run] := rfl
    rw [monitor_iterate_cons_running (armed (entry i.sys)) _ _ hs rfl]
    generalize armed (entry i.sys) = p at hs2 hw2 hfd2 htr
    by_cases hin : condition &&& G_IO_IN = 0 <;> by_cases hh : condition &&& G_IO_HUP = 0
    · exact absurd hwake (by simp [hin, hh])
    · rw [monitor_iterate_stopped _ _ (Or.inr (by
        simp [dispatch, hw2, leader_fifo_io_cb, g_main_loop_quit, hin, hh, Proc.emit]))]
      simp [dispatch, hw2, leader_fifo_io_cb, g_main_loop_quit, hin, hh, Proc.emit,
        Proc.andThen, hs2, do_start_unit_eq, htr]
    · rw [monitor_iterate_stopped _ _ (Or.inr (by
        simp [dispatch, hw2, leader_fifo_io_cb, g_main_loop_quit, hin, hh, Proc.emit]))]
      simp [dispatch, hw2, leader_fifo_io_cb, g_main_loop_quit, hin, hh, Proc.emit,
        Proc.andThen, hs2, do_start_unit_eq, htr, hfd2]
    · rw [monitor_iterate_stopped _ _ (Or.inr (by
        simp [dispatch, hw2, leader_fifo_io_cb, g_main_loop_quit, hin, hh, Proc.emit]))]
      simp [dispatch, hw2, leader_fifo_io_cb, g_main_loop_quit, hin, hh, Proc.emit,
        Proc.andThen, hs2, do_start_unit_eq, htr, hfd2]
  refine ⟨htrace, (trigger_actions_props _ _).1, h0s, h0c, ?_, ?_, ?_⟩
  · rw [h0t, io_count_append, he2]; rfl
  · rw [h0t]
    simp only [entry, do_monitor_leader_setup, Proc.emit, start]
    by_cases h1 : i.sys.mkfifo_ret < 0 && i.sys.mkfifo_errno != EEXIST <;>
    by_cases h2 : i.sys.open_ret ≥ 0 <;>
    by_cases h3 : i.sys.fstat_ret < 0 <;>
    by_cases h4 : mode_has_fifo_bit i.sys.st_mode = true <;>
    simp [h1, h2, h3, h4]
  · rw [htrace]
    simp only [spawn_count_append, h0c, (trigger_actions_props _ _).1]
    split_ifs <;> rfl

/-- C1, at a wake with both `G_IO_IN` and `G_IO_HUP`: the full trace of the
monitor. -/
theorem monitor_fifo_wake_trace_witness :
    (main (monitor_input sys_fifo) [Event.fifo_ready (G_IO_IN ||| G_IO_HUP)]).trace =
      [Action.sd_notify "READY=1",
       Action.mkfifo "/run/user/1000/gnome-session-leader-fifo" 0o666,
       Action.g_open "/run/user/1000/gnome-session-leader-fifo" "O_RDONLY | O_CLOEXEC",
       Action.fstat 5,
       Action.sd_notify "STATUS=Watching session leader",
       Action.g_main_loop_run,
       Action.sd_notify "STOPPING=1",
       Action.read 5 1,
       Action.g_main_loop_run_returned,
       Action.g_spawn_async ["/etc/init.d/gnome-session-shutdown", "start"]] :=
  (monitor_fifo_wake_trace (monitor_input sys_fifo) (G_IO_IN ||| G_IO_HUP) [] rfl rfl
    (by decide) (Or.inl (by decide))).1.trans (by decide)

/-- C2: in `--monitor` mode, for every result of opening and checking the
FIFO and every sequence of events, the monitor spawns the shutdown trigger at
most once; every spawn comes after the return of the loop; the loop has
returned if and only if the trigger was spawned exactly once; and whenever the
events hold a cause that ends the run (SIGTERM, SIGINT, or, when the FIFO is
watched, a FIFO condition with `G_IO_HUP` or `G_IO_IN`), the loop returns, the
trigger is spawned exactly once and the monitor exits with status 0. -/
theorem shutdown_trigger_unconditional (i : Input) (events : List Event)
    (hparse : i.parse_ok = true) (hmode : i.opts = ⟨false, true, false⟩) :
    spawn_count (main i events).trace ≤ 1 ∧
    (∀ a b argv, (main i events).trace = a ++ Action.g_spawn_async argv :: b →
      Action.g_main_loop_run_returned ∈ a) ∧
    (Action.g_main_loop_run_returned ∈ (main i events).trace ↔
      spawn_count (main i events).trace = 1) ∧
    ((∃ e ∈ events, ends_run i.sys.fifo_ok e = true) →
      Action.g_main_loop_run_returned ∈ (main i events).trace ∧
      spawn_count (main i events).trace = 1 ∧
      (main i events).status = Status.exited 0) := by
  obtain ⟨-, -, -, -, -, he1, -, he2, -, -⟩ := monitor_entry_props i.sys
  obtain ⟨ht1, -, -⟩ := trigger_actions_props i.cfg i.spawn_ok
  obtain ⟨t, h1, h2, -, h⟩ := main_monitor_trace i events hparse hmode
  have hpre : spawn_count ((entry i.sys).trace ++ [Action.g_main_loop_run] ++ t) = 0 := by
    rw [spawn_count_append, spawn_count_append, he1, h1]; rfl
  rcases h with ⟨h3, h4, h5⟩ | ⟨h3, h4, h5⟩
  · have hcount : spawn_count (main i events).trace = 1 := by
      rw [h4, spawn_count_append, spawn_count_append, hpre, ht1]; rfl
    have hmem : Action.g_main_loop_run_returned ∈ (main i events).trace := by
      rw [h4]; simp
    refine ⟨by omega, ?_, ⟨fun _ => hcount, fun _ => hmem⟩, fun _ => ⟨hmem, hcount, h5⟩⟩
    intro a b argv hab
    rw [h4, List.append_assoc, List.singleton_append] at hab
    exact spawn_after_marker _ _ Action.g_main_loop_run_returned hpre rfl a b argv hab
  · have hcount : spawn_count (main i events).trace = 0 := by rw [h4, hpre]
    have hmem : Action.g_main_loop_run_returned ∉ (main i events).trace := by
      rw [h4]; simp [he2, h2]
    refine ⟨by omega, ?_, ⟨fun h => absurd h hmem, fun h => by omega⟩, ?_⟩
    · intro a b argv hab
      exact absurd hab (no_spawn_of_count_zero _ hcount a b argv)
    · rintro ⟨e, he, hee⟩
      rw [h3 e he] at hee
      exact absurd hee (by simp)

/-- C2, dead-leader case: a hang-up on the FIFO without any byte written
makes the trigger fire exactly once. -/
theorem shutdown_trigger_unconditional_witness :
    ends_run sys_fifo.fifo_ok (Event.fifo_ready G_IO_HUP) = true ∧
    spawn_count (main (monitor_input sys_fifo) [Event.fifo_ready G_IO_HUP]).trace = 1 ∧
    (main (monitor_input sys_fifo) [Event.fifo_ready G_IO_HUP]).status = Status.exited 0 :=
  ⟨by decide,
   ((shutdown_trigger_unconditional (monitor_input sys_fifo) [Event.fifo_ready G_IO_HUP]
      rfl rfl).2.2.2 ⟨_, List.mem_cons_self _ _, by decide⟩).2⟩

end Ctl

namespace Leader

/-- C4 (amended): for every input and every sequence of events, the leader
writes at most one sentinel byte for each distinct kind of signal delivered
(SIGHUP, SIGTERM, SIGINT), hence at most three in total. -/
theorem sentinel_bytes_bounded_by_kinds (i : Input) (events : List Event) :
    bytes_written (main i events).trace ≤ distinct_kinds events ∧
    distinct_kinds events ≤ 3 := by
  constructor
  · cases h : i.reaches_loop with
    | false =>
      obtain ⟨-, hb, -⟩ := setup_props i
      rw [(main_of_not_reaches_loop i events h).1, hb]
      exact Nat.zero_le _
    | true =>
      obtain ⟨-, hb, -, -, -, -, hr, -⟩ := setup_props i
      obtain ⟨-, -, -, w1, w2, w3⟩ := hr h
      obtain ⟨-, -, -, -, -, a1, a2, a3, -, -, a4, -⟩ := leader_armed_props (setup i)
      rw [main_of_reaches_loop i events h, (finish_props _).2.2.1]
      have := iterate_bytes events (armed (setup i))
      simp only [pending_kinds, a1, a2, a3, a4, w1, w2, w3, hb, Bool.true_and] at this
      simpa [distinct_kinds] using this
  · simp only [distinct_kinds]
    cases occurs .SIGHUP events <;> cases occurs .SIGTERM events <;>
      cases occurs .SIGINT events <;> decide

end Leader

/-- C4, counterexample: SIGHUP, SIGTERM and SIGINT delivered one after the
other, each `write` succeeding, put three sentinel bytes in the FIFO, which is
more than one. -/
theorem three_signals_three_sentinels :
    bytes_written (Leader.main (Leader.leader_input Leader.env_tty)
      [Leader.Event.signal Leader.TermSignal.SIGHUP Leader.WriteOutcome.wrote_1,
       Leader.Event.signal Leader.TermSignal.SIGTERM Leader.WriteOutcome.wrote_1,
       Leader.Event.signal Leader.TermSignal.SIGINT Leader.WriteOutcome.wrote_1]).trace = 3 ∧
    ¬ bytes_written (Leader.main (Leader.leader_input Leader.env_tty)
      [Leader.Event.signal Leader.TermSignal.SIGHUP Leader.WriteOutcome.wrote_1,
       Leader.Event.signal Leader.TermSignal.SIGTERM Leader.WriteOutcome.wrote_1,
       Leader.Event.signal Leader.TermSignal.SIGINT Leader.WriteOutcome.wrote_1]).trace ≤ 1 := by
  decide

/-- C5: once the leader is subscribed (the hang-up handler found the unit not
yet inactive), for notifications `pre ++ d :: post` where no dictionary of
`pre` reports "ActiveState" = "inactive" and `d` does: each notification of
`pre` leaves the process state unchanged, `d` clears the loop flag, after
`pre` alone the leader is still blocked in the loop, after `pre ++ [d]` the
run has ended and `main` has returned 0, and the notifications of `post` are
never dispatched.  The values under "ActiveState" are strings, as on the
bus. -/
theorem unit_state_notifications (i : Leader.Input) (c : Nat) (q : Leader.HangupQueries)
    (pre post : List Leader.Dict) (d : Leader.Dict)
    (hi : i.reaches_loop = true) (hq : Leader.cached_is_string q = true)
    (hsub : Leader.ends_at_hangup q = false)
    (hpre : ∀ d' ∈ pre, Leader.active_state_is_string d' = true ∧
      Leader.reports_inactive d' = false)
    (hd : Leader.reports_inactive d = true) :
    (∀ d' ∈ pre, ∀ p, Leader.graphical_session_pre_state_changed_cb d' p = p) ∧
    (∀ p, (Leader.graphical_session_pre_state_changed_cb d p).ctx.loop_running = false) ∧
    (Leader.main i (Leader.Event.fifo_ready c q
        :: pre.map Leader.Event.properties_changed)).status = Status.blocked ∧
    (Leader.main i (Leader.Event.fifo_ready c q
        :: (pre ++ [d]).map Leader.Event.properties_changed)).status = Status.exited 0 ∧
    Leader.main i (Leader.Event.fifo_ready c q
        :: (pre ++ d :: post).map Leader.Event.properties_changed)
      = Leader.main i (Leader.Event.fifo_ready c q
        :: (pre ++ [d]).map Leader.Event.properties_changed) := by
  obtain ⟨-, hs, -, -, hgo⟩ := Leader.after_hangup i c q [] hi hq
  obtain ⟨hl, ha, -⟩ := hgo hsub
  have hm : ∀ rest, Leader.main i (Leader.Event.fifo_ready c q :: rest)
      = Leader.finish (Leader.iterate
          (Leader.dispatch (Leader.armed (Leader.setup i)) (Leader.Event.fifo_ready c q))
          rest) :=
    fun rest => (Leader.after_hangup i c q rest hi hq).1
  generalize Leader.dispatch (Leader.armed (Leader.setup i)) (Leader.Event.fifo_ready c q)
    = p1 at hs hl ha hm
  have hdd : Leader.dispatch p1 (Leader.Event.properties_changed d)
      = Leader.g_main_loop_quit
          (p1.emit (Action.g_debug "Session services now inactive, quitting")) := by
    simp only [Leader.dispatch, ha, if_true]
    exact Leader.state_changed_cb_inactive d p1 hd
  have hend : ∀ rest, Leader.iterate p1
      ((pre ++ d :: rest).map Leader.Event.properties_changed)
      = Leader.g_main_loop_quit
          (p1.emit (Action.g_debug "Session services now inactive, quitting")) := by
    intro rest
    rw [List.map_append, Leader.iterate_quiet pre _ p1 hs hl hpre, List.map_cons,
      Leader.leader_iterate_cons_running _ _ _ hs hl, hdd,
      Leader.leader_iterate_stopped _ _ (Or.inr rfl)]
  refine ⟨?_, ?_, ?_, ?_, ?_⟩
  · intro d' hd' p
    exact Leader.state_changed_cb_quiet d' p (hpre d' hd').1 (hpre d' hd').2
  · intro p
    rw [Leader.state_changed_cb_inactive d p hd]
    rfl
  · rw [hm]
    have := Leader.iterate_quiet pre [] p1 hs hl hpre
    rw [List.append_nil] at this
    rw [this, Leader.leader_iterate_nil_running _ hs hl]
    exact Leader.finish_blocked _ rfl
  · rw [hm, hend []]
    exact Leader.finish_running _ hs
  · rw [hm, hm, hend post, hend []]

/-- C5, for the sequence unrelated property, "deactivating", "inactive": the
leader is still waiting after the first two and has ended after the third. -/
theorem unit_state_notifications_witness :
    (Leader.main (Leader.leader_input Leader.env_tty)
      [Leader.Event.fifo_ready G_IO_HUP Leader.unit_active,
       Leader.Event.properties_changed [("SubState", Leader.GVariant.string "dead")],
       Leader.Event.properties_changed
         [("ActiveState", Leader.GVariant.string "deactivating")]]).status
      = Status.blocked ∧
    (Leader.main (Leader.leader_input Leader.env_tty)
      [Leader.Event.fifo_ready G_IO_HUP Leader.unit_active,
       Leader.Event.properties_changed [("SubState", Leader.GVariant.string "dead")],
       Leader.Event.properties_changed
         [("ActiveState", Leader.GVariant.string "deactivating")],
       Leader.Event.properties_changed
         [("ActiveState", Leader.GVariant.string "inactive")]]).status
      = Status.exited 0 := by
  have h := unit_state_notifications (Leader.leader_input Leader.env_tty) G_IO_HUP
    Leader.unit_active
    [[("SubState", Leader.GVariant.string "dead")],
     [("ActiveState", Leader.GVariant.string "deactivating")]]
    []
    [("ActiveState", Leader.GVariant.string "inactive")]
    (by decide) (by decide) (by decide) (by decide) (by decide)
  exact ⟨h.2.2.1, h.2.2.2.1⟩

/-- C6: for every answer of the bus with the cached state absent or a
string, `monitor_hangup_cb` removes its source and does exactly one of two
things: it clears the loop flag and leaves `awaiting_shutdown` empty without
connecting a handler, or it connects one handler, stores the proxy in
`awaiting_shutdown` and leaves the loop flag set.  It ends the run if and only
if the unit is not resolved, the proxy is not made or the cached state is
"inactive"; then `main` returns 0 with no notification awaited and no handler
connected; otherwise the leader is blocked in the loop with one handler
connected.  Over any sequence of events the leader connects at most one
handler. -/
theorem hangup_handler_ends_or_subscribes (i : Leader.Input) (c : Nat)
    (q : Leader.HangupQueries) (p : Leader.Proc) (events rest : List Leader.Event)
    (hi : i.reaches_loop = true) (hq : Leader.cached_is_string q = true)
    (hl : p.ctx.loop_running = true) (ha : p.ctx.awaiting_shutdown = none) :
    (Leader.monitor_hangup_cb c q p).2 = false ∧
    (((Leader.monitor_hangup_cb c q p).1.ctx.loop_running = false ∧
        (Leader.monitor_hangup_cb c q p).1.ctx.awaiting_shutdown = none ∧
        subscription_count (Leader.monitor_hangup_cb c q p).1.trace
          = subscription_count p.trace) ∨
      ((Leader.monitor_hangup_cb c q p).1.ctx.loop_running = true ∧
        (Leader.monitor_hangup_cb c q p).1.ctx.awaiting_shutdown = q.unit ∧ q.unit ≠ none ∧
        subscription_count (Leader.monitor_hangup_cb c q p).1.trace
          = subscription_count p.trace + 1)) ∧
    ((Leader.monitor_hangup_cb c q p).1.ctx.loop_running = false ↔
      Leader.ends_at_hangup q = true) ∧
    (Leader.ends_at_hangup q = true →
      (Leader.main i (Leader.Event.fifo_ready c q :: rest)).status = Status.exited 0 ∧
      subscription_count (Leader.main i (Leader.Event.fifo_ready c q :: rest)).trace = 0) ∧
    (Leader.ends_at_hangup q = false →
      (Leader.main i [Leader.Event.fifo_ready c q]).status = Status.blocked ∧
      subscription_count (Leader.main i [Leader.Event.fifo_ready c q]).trace = 1) ∧
    subscription_count (Leader.main i events).trace ≤ 1 := by
  obtain ⟨d0, -, d2, d3⟩ := Leader.monitor_hangup_cb_decides c q p hq hl ha
  refine ⟨d0, d2, d3, ?_, ?_, Leader.main_subscriptions i events⟩
  · intro he
    obtain ⟨hm, hs, -, hend, -⟩ := Leader.after_hangup i c q rest hi hq
    obtain ⟨h1, h2⟩ := hend he
    rw [hm, Leader.leader_iterate_stopped _ _ (Or.inr h1)]
    exact ⟨Leader.finish_running _ hs, by rw [(Leader.finish_props _).2.2.2.1, h2]⟩
  · intro he
    obtain ⟨hm, hs, -, -, hgo⟩ := Leader.after_hangup i c q [] hi hq
    obtain ⟨h1, -, h3⟩ := hgo he
    rw [hm, Leader.leader_iterate_nil_running _ hs h1]
    exact ⟨Leader.finish_blocked _ rfl, by rw [(Leader.finish_props _).2.2.2.1]; exact h3⟩

/-- C6, with the unit already inactive: the leader ends without a
subscription and without waiting for a notification. -/
theorem hangup_handler_ends_or_subscribes_witness :
    (Leader.main (Leader.leader_input Leader.env_tty)
      [Leader.Event.fifo_ready G_IO_HUP Leader.unit_inactive]).status = Status.exited 0 ∧
    subscription_count (Leader.main (Leader.leader_input Leader.env_tty)
      [Leader.Event.fifo_ready G_IO_HUP Leader.unit_inactive]).trace = 0 := by
  have h := hangup_handler_ends_or_subscribes (Leader.leader_input Leader.env_tty) G_IO_HUP
    Leader.unit_inactive (Leader.armed (Leader.setup (Leader.leader_input Leader.env_tty)))
    [] [] (by decide) (by decide) (by decide) (by decide)
  exact h.2.2.2.1 (by decide)

/-- C8, at XDG_SESSION_TYPE=tty: after the setup the leader is blocked in its
loop, the variable in the environment still reads "tty", and "wayland" is
only in the local variable `session_type` of `main`, which nothing reads. -/
theorem session_type_tty_not_exported :
    Leader.g_getenv Leader.env_tty "XDG_SESSION_TYPE" = some "tty" ∧
    Leader.g_getenv (Leader.main (Leader.leader_input Leader.env_tty) []).env
      "XDG_SESSION_TYPE" = some "tty" ∧
    (Leader.main (Leader.leader_input Leader.env_tty) []).session_type = some "wayland" ∧
    (Leader.main (Leader.leader_input Leader.env_tty) []).status = Status.blocked := by
  decide

/-- C9: for every `st_mode` made of one of the seven standard file types and
permission bits up to 0o7777, the test `st_mode & S_IFIFO` of the two programs
agrees with the exact test `(st_mode & S_IFMT) == S_IFIFO`, and it accepts
exactly the named pipes. -/
theorem fifo_bit_test_exact_on_standard_types (t perm : Nat)
    (ht : t ∈ standardFileTypes) (hp : perm ≤ 0o7777) :
    mode_has_fifo_bit (t ||| perm) = mode_is_fifo_exact (t ||| perm) ∧
    (mode_has_fifo_bit (t ||| perm) = true ↔ t = S_IFIFO) := by
  obtain ⟨h1, h2⟩ := fifo_bit_of_type t perm hp
  rw [h1, h2]
  simp only [standardFileTypes, List.mem_cons, List.mem_singleton, List.not_mem_nil,
    or_false] at ht
  rcases ht with h | h | h | h | h | h | h <;> subst h <;> decide

/-- C9, for a socket with mode 0644: both tests reject it. -/
theorem fifo_bit_test_exact_on_standard_types_witness :
    mode_has_fifo_bit (S_IFSOCK ||| 0o644) = mode_is_fifo_exact (S_IFSOCK ||| 0o644) ∧
    (mode_has_fifo_bit (S_IFSOCK ||| 0o644) = true ↔ S_IFSOCK = S_IFIFO) :=
  fifo_bit_test_exact_on_standard_types S_IFSOCK 0o644 (by decide) (by decide)

/-- C10: when the leader gets past its argument check, with USER a C string
when set: if USER is unset or equals "gdm-greeter", the environment ends up
as the initial one with XDG_CONFIG_HOME set to "/var/lib/gdm-greeter/.config"
and HOME set to "/var/lib/gdm-greeter"; for every other USER value the
environment is left unchanged. -/
theorem greeter_environment_redirection (i : Leader.Input) (events : List Leader.Event)
    (hargc : 2 ≤ i.argc)
    (hc : ∀ u, Leader.g_getenv i.env "USER" = some u → IsCString u) :
    ((Leader.g_getenv i.env "USER" = none ∨
        Leader.g_getenv i.env "USER" = some "gdm-greeter") →
      (Leader.main i events).env =
        Leader.env_set
          (Leader.env_set i.env "XDG_CONFIG_HOME" "/var/lib/gdm-greeter/.config")
          "HOME" "/var/lib/gdm-greeter" ∧
      Leader.g_getenv (Leader.main i events).env "HOME" = some "/var/lib/gdm-greeter" ∧
      Leader.g_getenv (Leader.main i events).env "XDG_CONFIG_HOME"
        = some "/var/lib/gdm-greeter/.config") ∧
    (¬ (Leader.g_getenv i.env "USER" = none ∨
        Leader.g_getenv i.env "USER" = some "gdm-greeter") →
      (Leader.main i events).env = i.env) := by
  have h2 : ¬ i.argc < 2 := by omega
  have henv := (Leader.main_env i events).1
  rw [(Leader.setup_props i).1, if_neg h2, Leader.setup_user_env i.env hc] at henv
  constructor
  · intro h
    rw [if_pos h] at henv
    rw [henv]
    refine ⟨rfl, ?_, ?_⟩
    · simp [Leader.g_getenv, Leader.env_set]
    · have n : ¬ ("XDG_CONFIG_HOME" = "HOME") := by decide
      simp [Leader.g_getenv, Leader.env_set, n]
  · intro h
    rw [if_neg h] at henv
    exact henv

/-- C10, for USER=gdm-greeter-1, which only starts with the greeter name:
the environment is unchanged. -/
theorem greeter_environment_redirection_witness :
    Leader.g_getenv Leader.env_greeter_1 "USER" = some "gdm-greeter-1" ∧
    (Leader.main (Leader.leader_input Leader.env_greeter_1) []).env = Leader.env_greeter_1 ∧
    Leader.g_getenv (Leader.main (Leader.leader_input Leader.env_greeter_1) []).env "HOME"
      = some "/var/lib/gdm-greeter-1" := by
  have h := (greeter_environment_redirection (Leader.leader_input Leader.env_greeter_1) []
    (by decide) (by
      intro u hu
      have : u = "gdm-greeter-1" := by
        have h1 : Leader.g_getenv Leader.env_greeter_1 "USER" = some "gdm-greeter-1" := by
          decide
        exact (Option.some.inj (hu.symm.trans h1))
      rw [this]; decide)).2 (by decide)
  exact ⟨by decide, h, by rw [h]; decide⟩

end GnomeSession
